import Mathlib

/-!
# SecureDeployer: deployment creation and artifact association

A shallow embedding of `server/models/Deployment.js`, `server/config/s3.js` and
`server/controllers/DeploymentController.js`.

Modelling conventions.

* The relational store, the object-store bucket and the local staging directory
  are explicit fields of `World`; every operation takes a `World` and returns the
  `World` it leaves behind.
* Every boundary call (`pool.query`, `s3Client.upload`) may raise.  Whether it
  does, and with which `Error.message`, is decided by the `Env` the operation
  runs in: `none` means the call returns normally, `some m` means it throws an
  error whose message is `m`.  A call that throws changes nothing.
* `async` functions are run to completion one after the other; the interleaving
  of two `Deployment.create` calls at their `await` points is modelled
  separately by `CreateProc`.
* Timestamps (`created_at`, `uploaded_at`) and the `users` table only decorate
  rows and are left out.  Row ids are drawn from a counter kept in `World`.
* Request fields that may be missing are `Option`s: `none` is `undefined` in
  JavaScript and `NULL` once it reaches a query.  Ids are natural numbers.
* `models/DeploymentFile.js` is not part of the sources; its `create` follows the
  specification of `FileRecordRepository.create`.
-/

namespace SecureDeployer

/-! ## JavaScript values -/

/-- A thrown JavaScript `Error`; the code only ever inspects its `message`. -/
structure JsError where
  message : String
deriving DecidableEq

deriving instance DecidableEq for Except

/-- String conversion performed by a template literal on a value that is either
a string or `undefined`. -/
def jsToString : Option String → String
  | some s => s
  | none => "undefined"

/-- String conversion performed by a template literal on a column value read
back from the database, where SQL `NULL` arrives as `null`. -/
def jsColumnToString : Option String → String
  | some s => s
  | none => "null"

/-- The JavaScript expression `a || b` where `a` is a string, `null` or
`undefined`: the empty string is falsy as well. -/
def jsOrString (a : Option String) (b : String) : String :=
  match a with
  | some s => if s = "" then b else s
  | none => b

/-- Whether the character list starts with the given pattern. -/
def startsWithChars : List Char → List Char → Bool
  | _, [] => true
  | [], _ :: _ => false
  | c :: cs, p :: ps => c == p && startsWithChars cs ps

/-- Whether the pattern occurs somewhere in the character list. -/
def includesChars : List Char → List Char → Bool
  | [], pat => startsWithChars [] pat
  | c :: cs, pat => startsWithChars (c :: cs) pat || includesChars cs pat

/-- The method `String.prototype.includes`. -/
def jsIncludes (s pat : String) : Bool :=
  includesChars s.data pat.data

/-- SQL `a = b`: a comparison with `NULL` is never true. -/
def sqlEq {α : Type} [DecidableEq α] : Option α → Option α → Bool
  | some a, some b => decide (a = b)
  | _, _ => false

/-! ## Data model -/

/-- A row of `public.services`. -/
structure ServiceRow where
  id : Nat
  name : Option String
  application : Option String
deriving DecidableEq

/-- A row of `public.deployments`. -/
structure DeploymentRow where
  id : Nat
  service_id : Option Nat
  version : Option String
  changes : Option String
  created_by : Nat
  branch_name : String
deriving DecidableEq

/-- A row of `public.deployment_files`; `file_path` holds the storage key. -/
structure FileRow where
  id : Nat
  deployment_id : Nat
  file_name : String
  file_path : String
  file_type : String
  file_size : Nat
  uploaded_by : Nat
deriving DecidableEq

/-- An object of the configured bucket. -/
structure S3Object where
  key : String
  body : List Nat
  contentType : String
deriving DecidableEq

/-- The `req.file` object that multer attaches to a request. -/
structure UploadedFile where
  path : String
  originalname : String
  mimetype : String
  size : Nat
deriving DecidableEq

/-- Everything the controller reads and writes: the three tables with their id
counters, the objects of the bucket, the keys put so far (a record of the calls to
`s3Client.upload` that succeeded, oldest first) and the files of the local staging
directory as pairs of path and bytes. -/
structure World where
  services : List ServiceRow
  deployments : List DeploymentRow
  deployment_files : List FileRow
  nextDeploymentId : Nat
  nextFileId : Nat
  objects : List S3Object
  putLog : List String
  tempFiles : List (String × List Nat)
deriving DecidableEq

/-- The behaviour of the collaborators during one call: for every boundary call
whether it throws (and the message of the error), the `Key` the object store
reports back for a put, and the library function `path.extname`. -/
structure Env where
  nameQuery : Option String
  checkQuery : Option String
  serviceQuery : Option String
  insertQuery : Option String
  upload : Option String
  uploadKey : String → String
  fileInsert : Option String
  findQuery : Option String
  filesQuery : Option String
  deleteFilesQuery : Option String
  deleteQuery : Option String
  extname : String → String

/-- The environment in which no boundary call throws and the object store
reports back the key it was given. -/
def Env.ok : Env where
  nameQuery := none
  checkQuery := none
  serviceQuery := none
  insertQuery := none
  upload := none
  uploadKey := fun k => k
  fileInsert := none
  findQuery := none
  filesQuery := none
  deleteFilesQuery := none
  deleteQuery := none
  extname := fun _ => ""

/-- The deployment object returned by `Deployment.create`: the inserted row with
the `application` of its service added. -/
structure CreatedDeployment where
  row : DeploymentRow
  application : Option String
deriving DecidableEq

/-- The deployment object returned by `Deployment.findById`: the row joined with
its service, and its files. -/
structure FoundDeployment where
  row : DeploymentRow
  service_name : Option String
  application : Option String
  files : List FileRow
deriving DecidableEq

/-- The `data` an upload resolves to. -/
structure UploadData where
  Key : String
  Location : String
deriving DecidableEq

/-- The JSON bodies the controller sends. -/
inductive Body where
  | message (m : String)
  | deploymentAndFile (deployment : CreatedDeployment) (file : FileRow)
  | deployment (deployment : CreatedDeployment)
  | file (file : FileRow)
  | successMessage (m : String)
deriving DecidableEq

/-- An HTTP response: status code and JSON body. -/
structure Response where
  status : Nat
  body : Body
deriving DecidableEq

/-- The fields of `req.body` the controller destructures. -/
structure CreateBody where
  serviceId : Option Nat
  version : Option String
  changes : Option String
  branchName : Option String
deriving DecidableEq

/-- A request to `createDeploymentWithFile` or `createDeployment`; `userId` is
`req.user.id` as set by the auth middleware. -/
structure CreateRequest where
  file : Option UploadedFile
  body : CreateBody
  userId : Nat
deriving DecidableEq

/-- A request to `uploadDeploymentFile`. -/
structure UploadRequest where
  file : Option UploadedFile
  deploymentId : Nat
  userId : Nat
deriving DecidableEq

/-! ## Local staging directory (`fs`) -/

/-- The call `fs.existsSync(path)`. -/
def existsSync (w : World) (path : String) : Bool :=
  w.tempFiles.any (fun f => f.1 == path)

/-- The call `fs.readFileSync(path)`: `none` when it throws. -/
def readFileSync (w : World) (path : String) : Option (List Nat) :=
  (w.tempFiles.find? (fun f => f.1 == path)).map (fun f => f.2)

/-- The call `fs.unlinkSync(path)`: throws when there is no such file. -/
def unlinkSync (w : World) (path : String) : Except JsError Unit × World :=
  if existsSync w path then
    (.ok (), { w with tempFiles := w.tempFiles.filter (fun f => !(f.1 == path)) })
  else
    (.error ⟨"ENOENT: no such file or directory, unlink " ++ path⟩, w)

/-! ## `config/s3.js` -/

/-- Writing an object under a key replaces the object already stored there. -/
def putObject (objects : List S3Object) (o : S3Object) : List S3Object :=
  objects.filter (fun x => !(x.key == o.key)) ++ [o]

/-- The function `uploadFile(file, bucketName, key)`. -/
def uploadFile (env : Env) (w : World) (file : UploadedFile) (key : String) :
    Except JsError UploadData × World :=
  match readFileSync w file.path with
  | none => (.error ⟨"ENOENT: no such file or directory, open " ++ file.path⟩, w)
  | some fileContent =>
    match env.upload with
    | some m => (.error ⟨m⟩, w)
    | none =>
      (.ok { Key := env.uploadKey key, Location := key },
       { w with
         objects := putObject w.objects ⟨key, fileContent, file.mimetype⟩
         putLog := w.putLog ++ [key] })

/-! ## `models/Deployment.js` -/

/-- The message of the error `Deployment.create` throws for a duplicate. -/
def duplicateMessage : String :=
  "A deployment with this version already exists for this service"

/-- The method `Deployment.checkVersionExists(serviceId, version)`. -/
def Deployment.checkVersionExists (env : Env) (w : World)
    (serviceId : Option Nat) (version : Option String) : Except JsError Bool :=
  match env.checkQuery with
  | some m => .error ⟨m⟩
  | none =>
    .ok (decide (0 < (w.deployments.filter
      (fun d => sqlEq d.service_id serviceId && sqlEq d.version version)).length))

/-- The query `SELECT application FROM public.services WHERE id = $1` of
`Deployment.create`, with `serviceResult.rows[0]?.application`. -/
def Deployment.lookupApplication (env : Env) (w : World) (serviceId : Option Nat) :
    Except JsError (Option String) :=
  match env.serviceQuery with
  | some m => .error ⟨m⟩
  | none =>
    .ok (((w.services.filter (fun s => sqlEq (some s.id) serviceId)).head?).bind
      (fun s => s.application))

/-- The `INSERT INTO public.deployments ... RETURNING *` of `Deployment.create`. -/
def Deployment.insertRow (env : Env) (w : World) (serviceId : Option Nat)
    (version changes : Option String) (userId : Nat) (branchName : Option String) :
    Except JsError DeploymentRow × World :=
  match env.insertQuery with
  | some m => (.error ⟨m⟩, w)
  | none =>
    let row : DeploymentRow :=
      { id := w.nextDeploymentId
        service_id := serviceId
        version := version
        changes := changes
        created_by := userId
        branch_name := jsOrString branchName "main" }
    (.ok row,
     { w with
       deployments := w.deployments ++ [row]
       nextDeploymentId := w.nextDeploymentId + 1 })

/-- The method `Deployment.create(serviceId, version, changes, userId, branchName)`. -/
def Deployment.create (env : Env) (w : World) (serviceId : Option Nat)
    (version changes : Option String) (userId : Nat) (branchName : Option String) :
    Except JsError CreatedDeployment × World :=
  match Deployment.checkVersionExists env w serviceId version with
  | .error e => (.error e, w)
  | .ok true => (.error ⟨duplicateMessage⟩, w)
  | .ok false =>
    match Deployment.lookupApplication env w serviceId with
    | .error e => (.error e, w)
    | .ok application =>
      match Deployment.insertRow env w serviceId version changes userId branchName with
      | (.error e, w1) => (.error e, w1)
      | (.ok row, w1) => (.ok ⟨row, application⟩, w1)

/-- The method `Deployment.findById(id)`. -/
def Deployment.findById (env : Env) (w : World) (id : Nat) :
    Except JsError (Option FoundDeployment) :=
  match env.findQuery with
  | some m => .error ⟨m⟩
  | none =>
    match (w.deployments.filter (fun d => d.id == id)).head? with
    | none => .ok none
    | some d =>
      match env.filesQuery with
      | some m => .error ⟨m⟩
      | none =>
        let service := (w.services.filter (fun s => sqlEq d.service_id (some s.id))).head?
        .ok (some
          { row := d
            service_name := service.bind (fun s => s.name)
            application := service.bind (fun s => s.application)
            files := w.deployment_files.filter (fun f => f.deployment_id == id) })

/-- The method `Deployment.delete(id)`: two separate queries, the second
`RETURNING *`. -/
def Deployment.delete (env : Env) (w : World) (id : Nat) :
    Except JsError (Option DeploymentRow) × World :=
  match env.deleteFilesQuery with
  | some m => (.error ⟨m⟩, w)
  | none =>
    let w1 : World :=
      { w with deployment_files := w.deployment_files.filter (fun f => !(f.deployment_id == id)) }
    match env.deleteQuery with
    | some m => (.error ⟨m⟩, w1)
    | none =>
      ((.ok ((w1.deployments.filter (fun d => d.id == id)).head?)),
       { w1 with deployments := w1.deployments.filter (fun d => !(d.id == id)) })

/-! ## `models/DeploymentFile.js` -/

/-- Modelled from the spec: `models/DeploymentFile.js` is not among the sources.
`FileRecordRepository.create(deploymentId, originalName, storageKey, fileType,
sizeBytes, uploadedBy) -> File` inserts one file row linked to the deployment and
fails with `ForeignKeyError` if `deploymentId` does not reference an existing
deployment. -/
def DeploymentFile.create (env : Env) (w : World) (deploymentId : Nat)
    (fileName filePath fileType : String) (fileSize uploadedBy : Nat) :
    Except JsError FileRow × World :=
  match env.fileInsert with
  | some m => (.error ⟨m⟩, w)
  | none =>
    if w.deployments.any (fun d => d.id == deploymentId) then
      let row : FileRow :=
        { id := w.nextFileId
          deployment_id := deploymentId
          file_name := fileName
          file_path := filePath
          file_type := fileType
          file_size := fileSize
          uploaded_by := uploadedBy }
      (.ok row,
       { w with
         deployment_files := w.deployment_files ++ [row]
         nextFileId := w.nextFileId + 1 })
    else
      (.error ⟨"ForeignKeyError"⟩, w)

/-! ## `controllers/DeploymentController.js` -/

/-- The function `getServiceName(serviceId)`. -/
def getServiceName (env : Env) (w : World) (serviceId : Option Nat) : String :=
  match env.nameQuery with
  | some _ => "unknown-service"
  | none =>
    jsOrString
      (((w.services.filter (fun s => sqlEq (some s.id) serviceId)).head?).bind
        (fun s => s.name))
      "unknown-service"

/-- The template literal that builds the S3 key in `createDeploymentWithFile`,
where `version` is the field of `req.body`. -/
def s3KeyTemplate (serviceName : String) (version : Option String) (fileName : String) :
    String :=
  "/" ++ serviceName ++ "/" ++ jsToString version ++ "/" ++ fileName

/-- The template literal that builds the S3 key in `uploadDeploymentFile`, where
`version` is the column of the deployment row that was read back. -/
def s3KeyOfRow (serviceName : String) (version : Option String) (fileName : String) :
    String :=
  "/" ++ serviceName ++ "/" ++ jsColumnToString version ++ "/" ++ fileName

/-- The test `error.message && error.message.includes(...)` of the inner
`catch` blocks. -/
def isDuplicateVersionMessage (e : JsError) : Bool :=
  !(e.message == "") && jsIncludes e.message "already exists for this service"

/-- The cleanup of the outer `catch` blocks:
`if (req.file && req.file.path && fs.existsSync(req.file.path)) fs.unlinkSync(req.file.path)`. -/
def cleanupTempFile (w : World) (file : Option UploadedFile) : World :=
  match file with
  | none => w
  | some f =>
    if !(f.path == "") && existsSync w f.path then (unlinkSync w f.path).2 else w

/-- The inner `try` block of `createDeploymentWithFile`, entered with the
uploaded file. -/
def createDeploymentWithFile.inner (env : Env) (w : World) (req : CreateRequest)
    (file : UploadedFile) : Except JsError Response × World :=
  let serviceName := getServiceName env w req.body.serviceId
  match Deployment.create env w req.body.serviceId req.body.version req.body.changes
      req.userId req.body.branchName with
  | (.error e, w1) => (.error e, w1)
  | (.ok deployment, w1) =>
    let fileName := file.originalname
    let fileType := (env.extname fileName).drop 1
    let fileSize := file.size
    let s3Key := s3KeyTemplate serviceName req.body.version fileName
    match uploadFile env w1 file s3Key with
    | (.error e, w2) => (.error e, w2)
    | (.ok s3Upload, w2) =>
      let s3Path := s3Upload.Key
      match DeploymentFile.create env w2 deployment.row.id fileName s3Path fileType fileSize
          req.userId with
      | (.error e, w3) => (.error e, w3)
      | (.ok fileRow, w3) =>
        match unlinkSync w3 file.path with
        | (.error e, w4) => (.error e, w4)
        | (.ok _, w4) => (.ok ⟨201, .deploymentAndFile deployment fileRow⟩, w4)

/-- The handler `createDeploymentWithFile(req, res)`. -/
def createDeploymentWithFile (env : Env) (w : World) (req : CreateRequest) :
    Response × World :=
  match req.file with
  | none => (⟨400, .message "File upload is mandatory for deployment creation"⟩, w)
  | some file =>
    match createDeploymentWithFile.inner env w req file with
    | (.ok res, w1) => (res, w1)
    | (.error e, w1) =>
      if isDuplicateVersionMessage e then
        (⟨409, .message e.message⟩, w1)
      else
        (⟨500, .message "Server error"⟩, cleanupTempFile w1 req.file)

/-- The handler `createDeployment(req, res)`. -/
def createDeployment (env : Env) (w : World) (req : CreateRequest) : Response × World :=
  match Deployment.create env w req.body.serviceId req.body.version req.body.changes
      req.userId req.body.branchName with
  | (.ok deployment, w1) => (⟨201, .deployment deployment⟩, w1)
  | (.error e, w1) =>
    if isDuplicateVersionMessage e then
      (⟨409, .message e.message⟩, w1)
    else
      (⟨500, .message "Server error"⟩, w1)

/-- The `try` block of `uploadDeploymentFile`, entered with the uploaded file. -/
def uploadDeploymentFile.inner (env : Env) (w : World) (req : UploadRequest)
    (file : UploadedFile) : Except JsError Response × World :=
  let fileName := file.originalname
  let fileType := (env.extname fileName).drop 1
  let fileSize := file.size
  match Deployment.findById env w req.deploymentId with
  | .error e => (.error e, w)
  | .ok none => (.ok ⟨404, .message "Deployment not found"⟩, w)
  | .ok (some deployment) =>
    let serviceName :=
      jsOrString deployment.service_name (getServiceName env w deployment.row.service_id)
    let version := deployment.row.version
    let s3Key := s3KeyOfRow serviceName version fileName
    match uploadFile env w file s3Key with
    | (.error e, w2) => (.error e, w2)
    | (.ok s3Upload, w2) =>
      let s3Path := s3Upload.Key
      match DeploymentFile.create env w2 req.deploymentId fileName s3Path fileType fileSize
          req.userId with
      | (.error e, w3) => (.error e, w3)
      | (.ok fileRow, w3) =>
        match unlinkSync w3 file.path with
        | (.error e, w4) => (.error e, w4)
        | (.ok _, w4) => (.ok ⟨201, .file fileRow⟩, w4)

/-- The handler `uploadDeploymentFile(req, res)`. -/
def uploadDeploymentFile (env : Env) (w : World) (req : UploadRequest) :
    Response × World :=
  match req.file with
  | none => (⟨400, .message "No file uploaded"⟩, w)
  | some file =>
    match uploadDeploymentFile.inner env w req file with
    | (.ok res, w1) => (res, w1)
    | (.error _, w1) => (⟨500, .message "Server error"⟩, cleanupTempFile w1 req.file)

/-- The handler `deleteDeployment(req, res)`. -/
def deleteDeployment (env : Env) (w : World) (id : Nat) : Response × World :=
  match Deployment.delete env w id with
  | (.error _, w1) => (⟨500, .message "Server error"⟩, w1)
  | (.ok none, w1) => (⟨404, .message "Deployment not found"⟩, w1)
  | (.ok (some _), w1) => (⟨200, .successMessage "Deployment deleted successfully"⟩, w1)

/-! ## Version uniqueness -/

/-- Two deployment rows carry the same (service_id, version) pair: their
service ids are equal and their versions are equal, a missing value being equal
to a missing value. -/
def sameVersionKey (a b : DeploymentRow) : Bool :=
  decide (a.service_id = b.service_id ∧ a.version = b.version)

/-- No two rows of the table share a (service_id, version) pair. -/
def VersionUnique (rows : List DeploymentRow) : Prop :=
  rows.Pairwise (fun a b => sameVersionKey a b = false)

/-- The rows of the table that carry the given pair. -/
def rowsFor (w : World) (serviceId : Nat) (version : String) : List DeploymentRow :=
  w.deployments.filter
    (fun d => sqlEq d.service_id (some serviceId) && sqlEq d.version (some version))

/-- The operations that write to the deployments table or run on top of one that
does. -/
inductive Op where
  | create (serviceId : Option Nat) (version changes : Option String) (userId : Nat)
      (branchName : Option String)
  | delete (id : Nat)
  | createDeploymentWithFile (req : CreateRequest)
  | createDeployment (req : CreateRequest)
  | uploadDeploymentFile (req : UploadRequest)

/-- The world an operation leaves behind, whether it succeeds or fails. -/
def Op.run (env : Env) (w : World) : Op → World
  | .create serviceId version changes userId branchName =>
    (Deployment.create env w serviceId version changes userId branchName).2
  | .delete id => (Deployment.delete env w id).2
  | .createDeploymentWithFile req => (SecureDeployer.createDeploymentWithFile env w req).2
  | .createDeployment req => (SecureDeployer.createDeployment env w req).2
  | .uploadDeploymentFile req => (SecureDeployer.uploadDeploymentFile env w req).2

/-- Whether the operation, if it creates a deployment, is given both a service
id and a version. -/
def Op.fieldsPresent : Op → Bool
  | .create serviceId version _ _ _ => serviceId.isSome && version.isSome
  | .delete _ => true
  | .createDeploymentWithFile req => req.body.serviceId.isSome && req.body.version.isSome
  | .createDeployment req => req.body.serviceId.isSome && req.body.version.isSome
  | .uploadDeploymentFile _ => true

/-- A sequence of operations run one after the other, each in its own
environment. -/
def runOps (w : World) : List (Env × Op) → World
  | [] => w
  | (env, op) :: rest => runOps (op.run env w) rest

/-! ## Two `Deployment.create` calls interleaved at their `await` points -/

/-- The arguments of one `Deployment.create` call. -/
structure CreateArgs where
  serviceId : Option Nat
  version : Option String
  changes : Option String
  userId : Nat
  branchName : Option String

/-- Where a running `Deployment.create` call stands: before one of its three
awaited queries, or finished with a result. -/
inductive CreatePc where
  | atCheck
  | atLookup
  | atInsert (application : Option String)
  | finished (result : Except JsError CreatedDeployment)

/-- A running `Deployment.create` call. -/
structure CreateProc where
  env : Env
  args : CreateArgs
  pc : CreatePc

/-- A call that has just been issued. -/
def CreateProc.start (env : Env) (args : CreateArgs) : CreateProc :=
  ⟨env, args, .atCheck⟩

/-- One awaited query of the call together with the synchronous code up to the
next `await` (or up to the return or throw). -/
def CreateProc.step (p : CreateProc) (w : World) : CreateProc × World :=
  match p.pc with
  | .atCheck =>
    match Deployment.checkVersionExists p.env w p.args.serviceId p.args.version with
    | .error e => ({ p with pc := .finished (.error e) }, w)
    | .ok true => ({ p with pc := .finished (.error ⟨duplicateMessage⟩) }, w)
    | .ok false => ({ p with pc := .atLookup }, w)
  | .atLookup =>
    match Deployment.lookupApplication p.env w p.args.serviceId with
    | .error e => ({ p with pc := .finished (.error e) }, w)
    | .ok application => ({ p with pc := .atInsert application }, w)
  | .atInsert application =>
    match Deployment.insertRow p.env w p.args.serviceId p.args.version p.args.changes
        p.args.userId p.args.branchName with
    | (.error e, w1) => ({ p with pc := .finished (.error e) }, w1)
    | (.ok row, w1) => ({ p with pc := .finished (.ok ⟨row, application⟩) }, w1)
  | .finished _ => (p, w)

/-- Whether the call returned a deployment. -/
def CreateProc.succeeded (p : CreateProc) : Bool :=
  match p.pc with
  | .finished (.ok _) => true
  | _ => false

/-- Whether the call threw the duplicate-version error. -/
def CreateProc.failedDuplicate (p : CreateProc) : Bool :=
  match p.pc with
  | .finished (.error e) => e.message == duplicateMessage
  | _ => false

/-- Two concurrent calls and the world they share. -/
structure Race where
  first : CreateProc
  second : CreateProc
  world : World

/-- The event loop resumes one of the two calls: `false` the first, `true` the
second. -/
def Race.step (r : Race) (who : Bool) : Race :=
  match who with
  | false => let (p, w) := r.first.step r.world; { r with first := p, world := w }
  | true => let (p, w) := r.second.step r.world; { r with second := p, world := w }

/-- The race run along a schedule. -/
def Race.run (r : Race) : List Bool → Race
  | [] => r
  | who :: rest => (r.step who).run rest

/-- A schedule is an interleaving of the two calls when it resumes each of them
exactly three times, once per awaited query. -/
def isInterleaving (schedule : List Bool) : Bool :=
  schedule.count false == 3 && schedule.count true == 3

/-- The schedules in which one call has finished before the other starts. -/
def isSerial (schedule : List Bool) : Bool :=
  schedule == [false, false, false, true, true, true] ||
  schedule == [true, true, true, false, false, false]

/-- What the race depends on in a running call: the query it is about to
issue, or how it ended. -/
inductive CallPhase where
  | check
  | lookup
  | insert
  | returned
  | duplicate
  | failed
deriving DecidableEq

/-- The phase of a running call. -/
def CreateProc.phase (p : CreateProc) : CallPhase :=
  match p.pc with
  | .atCheck => .check
  | .atLookup => .lookup
  | .atInsert _ => .insert
  | .finished (.ok _) => .returned
  | .finished (.error e) => if e.message == duplicateMessage then .duplicate else .failed

/-- One step of a call none of whose queries fails, seen through its phase and
the number of rows that carry its pair. -/
def phaseStep (ph : CallPhase) (rows : Nat) : CallPhase × Nat :=
  match ph with
  | .check => if 0 < rows then (.duplicate, rows) else (.lookup, rows)
  | .lookup => (.insert, rows)
  | .insert => (.returned, rows + 1)
  | .returned => (.returned, rows)
  | .duplicate => (.duplicate, rows)
  | .failed => (.failed, rows)

/-- The phases of two racing calls and the number of rows that carry their
pair. -/
structure RaceSummary where
  first : CallPhase
  second : CallPhase
  rows : Nat
deriving DecidableEq

/-- One step of the summarised race. -/
def RaceSummary.step (r : RaceSummary) (who : Bool) : RaceSummary :=
  match who with
  | false => { r with first := (phaseStep r.first r.rows).1, rows := (phaseStep r.first r.rows).2 }
  | true => { r with second := (phaseStep r.second r.rows).1, rows := (phaseStep r.second r.rows).2 }

/-- The summarised race run along a schedule. -/
def RaceSummary.run (r : RaceSummary) : List Bool → RaceSummary
  | [] => r
  | who :: rest => (r.step who).run rest

/-- The summary of a race on the given pair. -/
def Race.summary (r : Race) (serviceId : Nat) (version : String) : RaceSummary :=
  ⟨r.first.phase, r.second.phase, (rowsFor r.world serviceId version).length⟩

/-! ## Example data -/

/-- A world with one service, no deployment and one staged upload. -/
def exampleWorld : World where
  services := [⟨1, some "payments", some "billing"⟩]
  deployments := []
  deployment_files := []
  nextDeploymentId := 1
  nextFileId := 1
  objects := []
  putLog := []
  tempFiles := [("temp-uploads/file-1.pdf", [37, 80, 68, 70])]

/-- The staged upload of `exampleWorld`. -/
def exampleFile : UploadedFile :=
  ⟨"temp-uploads/file-1.pdf", "release.pdf", "application/pdf", 5000⟩

/-- A creation request for service 1 (payments), version 2.3.1, with
`exampleFile` attached. -/
def exampleRequest : CreateRequest :=
  ⟨some exampleFile, ⟨some 1, some "2.3.1", some "bug fixes", none⟩, 7⟩

/-- The deployment row `exampleRequest` inserts into `exampleWorld`. -/
def exampleRow : DeploymentRow :=
  ⟨1, some 1, some "2.3.1", some "bug fixes", 7, "main"⟩

/-- The world after `exampleRequest` has been served without failure: the
deployment exists, and a second upload is staged. -/
def exampleWorldAfter : World where
  services := [⟨1, some "payments", some "billing"⟩]
  deployments := [exampleRow]
  deployment_files :=
    [⟨1, 1, "release.pdf", "/payments/2.3.1/release.pdf", "pdf", 5000, 7⟩]
  nextDeploymentId := 2
  nextFileId := 2
  objects := [⟨"/payments/2.3.1/release.pdf", [37, 80, 68, 70], "application/pdf"⟩]
  putLog := ["/payments/2.3.1/release.pdf"]
  tempFiles := [("temp-uploads/file-2.pdf", [37, 80, 68, 70])]

/-- The second staged upload. -/
def exampleFile2 : UploadedFile :=
  ⟨"temp-uploads/file-2.pdf", "notes.pdf", "application/pdf", 1200⟩

/-- A creation request repeating service 1 and version 2.3.1. -/
def exampleRepeat : CreateRequest :=
  ⟨some exampleFile2, ⟨some 1, some "2.3.1", some "again", none⟩, 7⟩

/-- An attach request for deployment 1. -/
def exampleAttach : UploadRequest :=
  ⟨some exampleFile2, 1, 7⟩

/-- An attach request for a deployment that does not exist. -/
def exampleAttachMissing : UploadRequest :=
  ⟨some exampleFile2, 99, 7⟩

/-- The arguments of the two racing example calls. -/
def exampleArgs : CreateArgs :=
  ⟨some 1, some "2.3.1", some "bug fixes", 7, none⟩

/-- Two calls for service 1, version 2.3.1 issued together in `exampleWorld`. -/
def exampleRace : Race :=
  ⟨CreateProc.start Env.ok exampleArgs, CreateProc.start Env.ok exampleArgs, exampleWorld⟩

/-- An environment in which only the object-store upload fails. -/
def envUploadFails : Env :=
  { Env.ok with upload := some "connect ECONNREFUSED 127.0.0.1:9000" }

/-- An environment in which only the object-store upload fails, with an error
message that happens to contain the phrase the controller searches for. -/
def envUploadFailsLookalike : Env :=
  { Env.ok with
    upload := some "QuotaExceeded: a storage quota already exists for this service account" }

/-- A creation request that carries no file. -/
def exampleNoFile : CreateRequest :=
  ⟨none, ⟨some 1, some "2.3.1", some "bug fixes", none⟩, 7⟩

/-- An environment in which only the file-record insert fails. -/
def envFileInsertFails : Env :=
  { Env.ok with fileInsert := some "connection terminated unexpectedly" }

/-- An environment in which only the query that deletes the deployment row
fails. -/
def envDeleteRowFails : Env :=
  { Env.ok with deleteQuery := some "connection terminated unexpectedly" }

/-- An environment in which only the query that deletes the file rows fails. -/
def envDeleteFilesFails : Env :=
  { Env.ok with deleteFilesQuery := some "connection terminated unexpectedly" }

/-- The world `exampleWorldAfter` with a third upload staged, whose bytes differ
from those of the object already stored. -/
def exampleWorldRestaged : World :=
  { exampleWorldAfter with
    tempFiles := [("temp-uploads/file-3.pdf", [37, 80, 68, 70, 45, 50])] }

/-- The third staged upload; it has the original name of the first one. -/
def exampleFile3 : UploadedFile :=
  ⟨"temp-uploads/file-3.pdf", "release.pdf", "application/pdf", 6000⟩

/-- An attach request for deployment 1 with `exampleFile3`. -/
def exampleAttachSameName : UploadRequest :=
  ⟨some exampleFile3, 1, 7⟩

/-- An environment in which only the name lookup of `getServiceName` fails. -/
def envNameQueryFails : Env :=
  { Env.ok with nameQuery := some "connection terminated unexpectedly" }

/-- A creation request with `exampleFile` attached whose version is the empty
string. -/
def exampleEmptyVersion : CreateRequest :=
  ⟨some exampleFile, ⟨some 1, some "", some "bug fixes", none⟩, 7⟩

/-- A creation request with `exampleFile` attached whose version consists of two
blanks. -/
def exampleBlankVersion : CreateRequest :=
  ⟨some exampleFile, ⟨some 1, some "  ", some "bug fixes", none⟩, 7⟩

/-- A world like `exampleWorld` with a second service whose name is empty. -/
def exampleWorldUnnamed : World :=
  { exampleWorld with
    services := [⟨1, some "payments", some "billing"⟩, ⟨2, some "", some "ledger"⟩] }

/-- A creation request for service 42, which has no row, with `exampleFile`
attached. -/
def exampleUnknownService : CreateRequest :=
  ⟨some exampleFile, ⟨some 42, some "2.3.1", some "bug fixes", none⟩, 7⟩

/-- A request to `createDeployment` for service 1 that carries no version. -/
def exampleNoVersion : CreateRequest :=
  ⟨none, ⟨some 1, none, some "bug fixes", none⟩, 7⟩

/-- A creation request for service 1 with `exampleFile` attached that carries no
version. -/
def exampleAbsentVersion : CreateRequest :=
  ⟨some exampleFile, ⟨some 1, none, some "bug fixes", none⟩, 7⟩

/-- The world after `exampleAbsentVersion` has been served in `exampleWorld`
without failure, with a third upload staged. -/
def exampleWorldNullVersion : World :=
  { (createDeploymentWithFile Env.ok exampleWorld exampleAbsentVersion).2 with
    tempFiles := [("temp-uploads/file-3.pdf", [37, 80, 68, 70, 45, 50])] }

/-- The world after `exampleRequest` has been served in `exampleWorld` while the
name lookup failed, with a third upload staged. -/
def exampleWorldLookupFailed : World :=
  { (createDeploymentWithFile envNameQueryFails exampleWorld exampleRequest).2 with
    tempFiles := [("temp-uploads/file-3.pdf", [37, 80, 68, 70, 45, 50])] }

/-! ## Basic facts about the operations -/

theorem cleanupTempFile_deployments (w : World) (file : Option UploadedFile) :
    (cleanupTempFile w file).deployments = w.deployments := by
  unfold cleanupTempFile unlinkSync
  cases file with
  | none => rfl
  | some f => dsimp only; split <;> [split; skip] <;> rfl

theorem cleanupTempFile_deployment_files (w : World) (file : Option UploadedFile) :
    (cleanupTempFile w file).deployment_files = w.deployment_files := by
  unfold cleanupTempFile unlinkSync
  cases file with
  | none => rfl
  | some f => dsimp only; split <;> [split; skip] <;> rfl

theorem cleanupTempFile_objects (w : World) (file : Option UploadedFile) :
    (cleanupTempFile w file).objects = w.objects := by
  unfold cleanupTempFile unlinkSync
  cases file with
  | none => rfl
  | some f => dsimp only; split <;> [split; skip] <;> rfl

theorem cleanupTempFile_putLog (w : World) (file : Option UploadedFile) :
    (cleanupTempFile w file).putLog = w.putLog := by
  unfold cleanupTempFile unlinkSync
  cases file with
  | none => rfl
  | some f => dsimp only; split <;> [split; skip] <;> rfl

theorem existsSync_filter_out (w : World) (path : String) :
    existsSync { w with tempFiles := w.tempFiles.filter (fun f => !(f.1 == path)) } path
      = false := by
  simp [existsSync]

theorem cleanupTempFile_removes (w : World) (f : UploadedFile) (h : f.path ≠ "") :
    existsSync (cleanupTempFile w (some f)) f.path = false := by
  unfold cleanupTempFile
  by_cases hex : existsSync w f.path = true
  · have hc : (!(f.path == "") && existsSync w f.path) = true := by simp [hex, h]
    simp only [hc, if_true]
    unfold unlinkSync
    rw [if_pos hex]
    exact existsSync_filter_out w f.path
  · have hc : ¬ (!(f.path == "") && existsSync w f.path) = true := by simp [hex]
    simp only [hc, if_false]
    simpa using hex

theorem uploadFile_error_world (env : Env) (w : World) (file : UploadedFile) (key : String)
    (e : JsError) (h : (uploadFile env w file key).1 = .error e) :
    (uploadFile env w file key).2 = w := by
  unfold uploadFile at h ⊢
  split
  · rfl
  · split
    · rfl
    · rename_i h1 _ h2
      simp [h1, h2] at h

theorem insertRow_error_world (env : Env) (w : World) (s : Option Nat) (v c : Option String)
    (u : Nat) (b : Option String) (e : JsError)
    (h : (Deployment.insertRow env w s v c u b).1 = .error e) :
    (Deployment.insertRow env w s v c u b).2 = w := by
  unfold Deployment.insertRow at h ⊢
  cases hq : env.insertQuery with
  | none => simp [hq] at h
  | some m => rfl

theorem insertRow_ok (env : Env) (w w1 : World) (s : Option Nat) (v c : Option String)
    (u : Nat) (b : Option String) (row : DeploymentRow)
    (h : Deployment.insertRow env w s v c u b = (.ok row, w1)) :
    row = ⟨w.nextDeploymentId, s, v, c, u, jsOrString b "main"⟩ ∧
    w1 = { w with
      deployments := w.deployments ++ [row]
      nextDeploymentId := w.nextDeploymentId + 1 } := by
  unfold Deployment.insertRow at h
  cases hq : env.insertQuery with
  | none =>
    simp only [hq, Prod.mk.injEq, Except.ok.injEq] at h
    obtain ⟨h1, h2⟩ := h
    subst h1
    exact ⟨rfl, h2.symm⟩
  | some m => simp [hq] at h

theorem create_error_world (env : Env) (w : World) (s : Option Nat) (v c : Option String)
    (u : Nat) (b : Option String) (e : JsError)
    (h : (Deployment.create env w s v c u b).1 = .error e) :
    (Deployment.create env w s v c u b).2 = w := by
  unfold Deployment.create at h ⊢
  split
  · rfl
  · rfl
  · split
    · rfl
    · split
      · rename_i e1 w1 hins
        have := insertRow_error_world env w s v c u b e1 (by rw [hins])
        rw [hins] at this
        exact this
      · rename_i hc _ _ hl _ _ _ hins
        simp [hc, hl, hins] at h

theorem create_ok (env : Env) (w w1 : World) (s : Option Nat) (v c : Option String)
    (u : Nat) (b : Option String) (d : CreatedDeployment)
    (h : Deployment.create env w s v c u b = (.ok d, w1)) :
    Deployment.checkVersionExists env w s v = .ok false ∧
    d.row = ⟨w.nextDeploymentId, s, v, c, u, jsOrString b "main"⟩ ∧
    w1 = { w with
      deployments := w.deployments ++ [d.row]
      nextDeploymentId := w.nextDeploymentId + 1 } := by
  unfold Deployment.create at h
  split at h
  · simp at h
  · simp at h
  · rename_i hc
    split at h
    · simp at h
    · split at h
      · simp at h
      · rename_i row w2 hins
        simp only [Prod.mk.injEq, Except.ok.injEq] at h
        obtain ⟨h1, h2⟩ := h
        subst h1 h2
        have := insertRow_ok env w w2 s v c u b row hins
        exact ⟨hc, this.1, this.2⟩

/-! ## C1: the upload fails after the deployment row was created -/

/-- C1, as stated, fails: in `exampleWorld` the request `exampleRequest` makes
`Deployment.create` insert row 1, the upload is then refused, and after
`createDeploymentWithFile` has returned row 1 (absent before the call) is still in
the deployments table, while the response is the plain 500 "Server error" that
carries no deployment id. -/
theorem C1_counterexample :
    (Deployment.create envUploadFails exampleWorld (some 1) (some "2.3.1")
        (some "bug fixes") 7 none).1 = .ok ⟨exampleRow, some "billing"⟩ ∧
    (uploadFile envUploadFails
        (Deployment.create envUploadFails exampleWorld (some 1) (some "2.3.1")
          (some "bug fixes") 7 none).2
        exampleFile "/payments/2.3.1/release.pdf").1
      = .error ⟨"connect ECONNREFUSED 127.0.0.1:9000"⟩ ∧
    exampleRow ∉ exampleWorld.deployments ∧
    exampleRow ∈ (createDeploymentWithFile envUploadFails exampleWorld exampleRequest).2.deployments ∧
    (createDeploymentWithFile envUploadFails exampleWorld exampleRequest).1
      = ⟨500, .message "Server error"⟩ := by
  decide

/-- C1, amended: when `Deployment.create` succeeds and the upload then fails,
`createDeploymentWithFile` attempts no compensating delete.  After it returns the
deployments table is the table before the call followed by the row just inserted,
the deployment_files table, the bucket and the list of puts are unchanged, and
unless the upload error's message contains the duplicate-version phrase the
response is the plain 500 "Server error". -/
theorem C1_upload_failure_keeps_deployment_row
    (env : Env) (w w1 : World) (req : CreateRequest) (file : UploadedFile)
    (d : CreatedDeployment) (e : JsError)
    (hfile : req.file = some file)
    (hcreate : Deployment.create env w req.body.serviceId req.body.version req.body.changes
      req.userId req.body.branchName = (.ok d, w1))
    (hupload : (uploadFile env w1 file
      (s3KeyTemplate (getServiceName env w req.body.serviceId) req.body.version
        file.originalname)).1 = .error e) :
    (createDeploymentWithFile env w req).2.deployments = w.deployments ++ [d.row] ∧
    d.row ∈ (createDeploymentWithFile env w req).2.deployments ∧
    (createDeploymentWithFile env w req).2.deployment_files = w.deployment_files ∧
    (createDeploymentWithFile env w req).2.objects = w.objects ∧
    (createDeploymentWithFile env w req).2.putLog = w.putLog ∧
    (isDuplicateVersionMessage e = false →
      (createDeploymentWithFile env w req).1 = ⟨500, .message "Server error"⟩) := by
  have hw1 := (create_ok env w w1 _ _ _ _ _ d hcreate).2.2
  have hw2 := uploadFile_error_world env w1 file _ e hupload
  have hinner : createDeploymentWithFile.inner env w req file = (.error e, w1) := by
    unfold createDeploymentWithFile.inner
    simp only [hcreate]
    generalize hu : uploadFile env w1 file _ = r at hupload hw2
    obtain ⟨r1, r2⟩ := r
    simp only at hupload hw2
    subst hupload hw2
    rfl
  have hdep : w1.deployments = w.deployments ++ [d.row] := by rw [hw1]
  have hfiles : w1.deployment_files = w.deployment_files := by rw [hw1]
  have hobj : w1.objects = w.objects := by rw [hw1]
  have hlog : w1.putLog = w.putLog := by rw [hw1]
  unfold createDeploymentWithFile
  simp only [hfile, hinner]
  by_cases hdup : isDuplicateVersionMessage e = true
  · simp [hdup, hdep, hfiles, hobj, hlog]
  · simp [hdup, hdep, hfiles, hobj, hlog, cleanupTempFile_deployments,
      cleanupTempFile_deployment_files, cleanupTempFile_objects, cleanupTempFile_putLog]

/-- Witness for C1: the amended statement applied to `exampleRequest` in
`exampleWorld` with the upload refused. -/
theorem C1_upload_failure_keeps_deployment_row_witness :
    (createDeploymentWithFile envUploadFails exampleWorld exampleRequest).2.deployments
      = exampleWorld.deployments ++ [exampleRow] ∧
    exampleRow ∈
      (createDeploymentWithFile envUploadFails exampleWorld exampleRequest).2.deployments ∧
    (createDeploymentWithFile envUploadFails exampleWorld exampleRequest).2.deployment_files
      = exampleWorld.deployment_files ∧
    (createDeploymentWithFile envUploadFails exampleWorld exampleRequest).2.objects
      = exampleWorld.objects ∧
    (createDeploymentWithFile envUploadFails exampleWorld exampleRequest).2.putLog
      = exampleWorld.putLog ∧
    (isDuplicateVersionMessage ⟨"connect ECONNREFUSED 127.0.0.1:9000"⟩ = false →
      (createDeploymentWithFile envUploadFails exampleWorld exampleRequest).1
        = ⟨500, .message "Server error"⟩) :=
  C1_upload_failure_keeps_deployment_row envUploadFails exampleWorld
    (Deployment.create envUploadFails exampleWorld (some 1) (some "2.3.1")
      (some "bug fixes") 7 none).2
    exampleRequest exampleFile ⟨exampleRow, some "billing"⟩
    ⟨"connect ECONNREFUSED 127.0.0.1:9000"⟩ rfl (by decide) (by decide)

theorem uploadFile_ok (env : Env) (w w2 : World) (file : UploadedFile) (key : String)
    (data : UploadData) (h : uploadFile env w file key = (.ok data, w2)) :
    ∃ content, readFileSync w file.path = some content ∧
      env.upload = none ∧
      data.Key = env.uploadKey key ∧
      w2 = { w with
        objects := putObject w.objects ⟨key, content, file.mimetype⟩
        putLog := w.putLog ++ [key] } := by
  unfold uploadFile at h
  cases hr : readFileSync w file.path with
  | none => simp [hr] at h
  | some content =>
    cases hu : env.upload with
    | some m => simp [hr, hu] at h
    | none =>
      simp only [hr, hu, Prod.mk.injEq, Except.ok.injEq] at h
      exact ⟨content, rfl, rfl, by rw [← h.1], h.2.symm⟩

theorem putObject_mem (objects : List S3Object) (o : S3Object) :
    o ∈ putObject objects o := by
  simp [putObject]

theorem fileCreate_error_world (env : Env) (w : World) (depId : Nat)
    (name path type : String) (size by_ : Nat) (e : JsError)
    (h : (DeploymentFile.create env w depId name path type size by_).1 = .error e) :
    (DeploymentFile.create env w depId name path type size by_).2 = w := by
  unfold DeploymentFile.create at h ⊢
  cases hq : env.fileInsert with
  | some m => rfl
  | none =>
    by_cases hex : (w.deployments.any fun d => d.id == depId) = true
    · simp [hq, hex] at h
    · simp [hex]

/-- When the file-record insert fails after a successful upload,
`createDeploymentWithFile` leaves both the deployment row and the object. -/
theorem create_link_failure_keeps_all
    (env : Env) (w w1 w2 : World) (req : CreateRequest) (file : UploadedFile)
    (d : CreatedDeployment) (data : UploadData) (e : JsError)
    (hfile : req.file = some file)
    (hcreate : Deployment.create env w req.body.serviceId req.body.version req.body.changes
      req.userId req.body.branchName = (.ok d, w1))
    (hupload : uploadFile env w1 file
      (s3KeyTemplate (getServiceName env w req.body.serviceId) req.body.version
        file.originalname) = (.ok data, w2))
    (hlink : (DeploymentFile.create env w2 d.row.id file.originalname data.Key
      ((env.extname file.originalname).drop 1) file.size req.userId).1 = .error e) :
    (∃ o ∈ (createDeploymentWithFile env w req).2.objects,
      o.key = s3KeyTemplate (getServiceName env w req.body.serviceId) req.body.version
        file.originalname) ∧
    (createDeploymentWithFile env w req).2.putLog = w.putLog ++
      [s3KeyTemplate (getServiceName env w req.body.serviceId) req.body.version
        file.originalname] ∧
    (createDeploymentWithFile env w req).2.deployments = w.deployments ++ [d.row] ∧
    (createDeploymentWithFile env w req).2.deployment_files = w.deployment_files ∧
    (isDuplicateVersionMessage e = false →
      (createDeploymentWithFile env w req).1 = ⟨500, .message "Server error"⟩) := by
  have hw1 := (create_ok env w w1 _ _ _ _ _ d hcreate).2.2
  obtain ⟨content, _, _, _, hw2⟩ := uploadFile_ok env w1 w2 file _ data hupload
  have hw3 := fileCreate_error_world env w2 _ _ _ _ _ _ e hlink
  have hinner : createDeploymentWithFile.inner env w req file = (.error e, w2) := by
    unfold createDeploymentWithFile.inner
    simp only [hcreate, hupload]
    generalize hu : DeploymentFile.create env w2 _ _ _ _ _ _ = r at hlink hw3
    obtain ⟨r1, r2⟩ := r
    simp only at hlink hw3
    subst hlink hw3
    rfl
  have hobj : w2.objects = putObject w1.objects
      ⟨s3KeyTemplate (getServiceName env w req.body.serviceId) req.body.version
        file.originalname, content, file.mimetype⟩ := by rw [hw2]
  have hmem : ∃ o ∈ w2.objects,
      o.key = s3KeyTemplate (getServiceName env w req.body.serviceId) req.body.version
        file.originalname := ⟨_, by rw [hobj]; exact putObject_mem _ _, rfl⟩
  have hlog : w2.putLog = w.putLog ++
      [s3KeyTemplate (getServiceName env w req.body.serviceId) req.body.version
        file.originalname] := by rw [hw2, hw1]
  have hdep : w2.deployments = w.deployments ++ [d.row] := by rw [hw2, hw1]
  have hfiles : w2.deployment_files = w.deployment_files := by rw [hw2, hw1]
  unfold createDeploymentWithFile
  simp only [hfile, hinner]
  by_cases hdup : isDuplicateVersionMessage e = true
  · simp only [hdup, if_true]
    exact ⟨hmem, hlog, hdep, hfiles, by simp⟩
  · simp only [hdup, if_false, cleanupTempFile_deployments, Bool.false_eq_true,
      cleanupTempFile_deployment_files, cleanupTempFile_objects, cleanupTempFile_putLog]
    exact ⟨hmem, hlog, hdep, hfiles, by simp⟩

/-- When the file-record insert fails after a successful upload,
`uploadDeploymentFile` leaves the object and answers 500. -/
theorem attach_link_failure_keeps_object
    (env : Env) (w w2 : World) (req : UploadRequest) (file : UploadedFile)
    (dep : FoundDeployment) (data : UploadData) (e : JsError)
    (hfile : req.file = some file)
    (hfind : Deployment.findById env w req.deploymentId = .ok (some dep))
    (hupload : uploadFile env w file
      (s3KeyOfRow (jsOrString dep.service_name (getServiceName env w dep.row.service_id))
        dep.row.version file.originalname) = (.ok data, w2))
    (hlink : (DeploymentFile.create env w2 req.deploymentId file.originalname data.Key
      ((env.extname file.originalname).drop 1) file.size req.userId).1 = .error e) :
    (∃ o ∈ (uploadDeploymentFile env w req).2.objects,
      o.key = s3KeyOfRow
        (jsOrString dep.service_name (getServiceName env w dep.row.service_id))
        dep.row.version file.originalname) ∧
    (uploadDeploymentFile env w req).2.putLog = w.putLog ++
      [s3KeyOfRow (jsOrString dep.service_name (getServiceName env w dep.row.service_id))
        dep.row.version file.originalname] ∧
    (uploadDeploymentFile env w req).2.deployments = w.deployments ∧
    (uploadDeploymentFile env w req).2.deployment_files = w.deployment_files ∧
    (uploadDeploymentFile env w req).1 = ⟨500, .message "Server error"⟩ := by
  obtain ⟨content, _, _, _, hw2⟩ := uploadFile_ok env w w2 file _ data hupload
  have hw3 := fileCreate_error_world env w2 _ _ _ _ _ _ e hlink
  have hinner : uploadDeploymentFile.inner env w req file = (.error e, w2) := by
    unfold uploadDeploymentFile.inner
    simp only [hfind, hupload]
    generalize hu : DeploymentFile.create env w2 _ _ _ _ _ _ = r at hlink hw3
    obtain ⟨r1, r2⟩ := r
    simp only at hlink hw3
    subst hlink hw3
    rfl
  have hobj : w2.objects = putObject w.objects
      ⟨s3KeyOfRow (jsOrString dep.service_name (getServiceName env w dep.row.service_id))
        dep.row.version file.originalname, content, file.mimetype⟩ := by rw [hw2]
  unfold uploadDeploymentFile
  simp only [hfile, hinner, cleanupTempFile_deployments,
      cleanupTempFile_deployment_files, cleanupTempFile_objects, cleanupTempFile_putLog]
  refine ⟨⟨_, by rw [hobj]; exact putObject_mem _ _, rfl⟩, ?_, ?_, ?_, trivial⟩
  · rw [hw2]
  · rw [hw2]
  · rw [hw2]

/-! ## C2: the file-record insert fails after a successful upload -/

/-- C2, as stated, fails.  With only the file-record insert failing, serving
`exampleRequest` in `exampleWorld` leaves the object under
"/payments/2.3.1/release.pdf" in the bucket and deployment row 1 in the table;
attaching `notes.pdf` to deployment 1 in `exampleWorldAfter` leaves the object
under "/payments/2.3.1/notes.pdf", which was not there before. -/
theorem C2_counterexample :
    ((createDeploymentWithFile envFileInsertFails exampleWorld exampleRequest).2.objects.any
        (fun o => o.key == "/payments/2.3.1/release.pdf") = true ∧
      exampleRow ∉ exampleWorld.deployments ∧
      exampleRow ∈
        (createDeploymentWithFile envFileInsertFails exampleWorld exampleRequest).2.deployments ∧
      (createDeploymentWithFile envFileInsertFails exampleWorld exampleRequest).2.deployment_files
        = [] ∧
      (createDeploymentWithFile envFileInsertFails exampleWorld exampleRequest).1.status = 500) ∧
    (exampleWorldAfter.objects.any (fun o => o.key == "/payments/2.3.1/notes.pdf") = false ∧
      (uploadDeploymentFile envFileInsertFails exampleWorldAfter exampleAttach).2.objects.any
        (fun o => o.key == "/payments/2.3.1/notes.pdf") = true ∧
      (uploadDeploymentFile envFileInsertFails exampleWorldAfter exampleAttach).2.deployment_files
        = exampleWorldAfter.deployment_files ∧
      (uploadDeploymentFile envFileInsertFails exampleWorldAfter exampleAttach).1.status = 500) := by
  decide

/-- C2, amended: when the upload succeeds and the file-record insert then fails,
neither entry point attempts any compensation.  After `createDeploymentWithFile`
returns, the uploaded object is still in the bucket under the derived key, the
deployments table is the table before the call followed by the row just inserted,
no file row was added, and unless the error's message contains the
duplicate-version phrase the response is 500.  After `uploadDeploymentFile`
returns, the uploaded object is likewise still in the bucket under the derived key,
both tables are unchanged and the response is 500. -/
theorem C2_link_failure_keeps_object_and_row :
    (∀ (env : Env) (w w1 w2 : World) (req : CreateRequest) (file : UploadedFile)
        (d : CreatedDeployment) (data : UploadData) (e : JsError),
      req.file = some file →
      Deployment.create env w req.body.serviceId req.body.version req.body.changes
        req.userId req.body.branchName = (.ok d, w1) →
      uploadFile env w1 file
        (s3KeyTemplate (getServiceName env w req.body.serviceId) req.body.version
          file.originalname) = (.ok data, w2) →
      (DeploymentFile.create env w2 d.row.id file.originalname data.Key
        ((env.extname file.originalname).drop 1) file.size req.userId).1 = .error e →
      (∃ o ∈ (createDeploymentWithFile env w req).2.objects,
        o.key = s3KeyTemplate (getServiceName env w req.body.serviceId) req.body.version
          file.originalname) ∧
      (createDeploymentWithFile env w req).2.putLog = w.putLog ++
        [s3KeyTemplate (getServiceName env w req.body.serviceId) req.body.version
          file.originalname] ∧
      (createDeploymentWithFile env w req).2.deployments = w.deployments ++ [d.row] ∧
      (createDeploymentWithFile env w req).2.deployment_files = w.deployment_files ∧
      (isDuplicateVersionMessage e = false →
        (createDeploymentWithFile env w req).1 = ⟨500, .message "Server error"⟩)) ∧
    (∀ (env : Env) (w w2 : World) (req : UploadRequest) (file : UploadedFile)
        (dep : FoundDeployment) (data : UploadData) (e : JsError),
      req.file = some file →
      Deployment.findById env w req.deploymentId = .ok (some dep) →
      uploadFile env w file
        (s3KeyOfRow (jsOrString dep.service_name (getServiceName env w dep.row.service_id))
          dep.row.version file.originalname) = (.ok data, w2) →
      (DeploymentFile.create env w2 req.deploymentId file.originalname data.Key
        ((env.extname file.originalname).drop 1) file.size req.userId).1 = .error e →
      (∃ o ∈ (uploadDeploymentFile env w req).2.objects,
        o.key = s3KeyOfRow
          (jsOrString dep.service_name (getServiceName env w dep.row.service_id))
          dep.row.version file.originalname) ∧
      (uploadDeploymentFile env w req).2.putLog = w.putLog ++
        [s3KeyOfRow (jsOrString dep.service_name (getServiceName env w dep.row.service_id))
          dep.row.version file.originalname] ∧
      (uploadDeploymentFile env w req).2.deployments = w.deployments ∧
      (uploadDeploymentFile env w req).2.deployment_files = w.deployment_files ∧
      (uploadDeploymentFile env w req).1 = ⟨500, .message "Server error"⟩) :=
  ⟨create_link_failure_keeps_all, attach_link_failure_keeps_object⟩

/-- Witness for C2: both halves of the amended statement applied, the first to
`exampleRequest` in `exampleWorld`, the second to `exampleAttach` in
`exampleWorldAfter`, each with only the file-record insert failing. -/
theorem C2_link_failure_keeps_object_and_row_witness :
    ((∃ o ∈ (createDeploymentWithFile envFileInsertFails exampleWorld exampleRequest).2.objects,
        o.key = "/payments/2.3.1/release.pdf") ∧
      (createDeploymentWithFile envFileInsertFails exampleWorld exampleRequest).2.deployments
        = [exampleRow] ∧
      (createDeploymentWithFile envFileInsertFails exampleWorld exampleRequest).1
        = ⟨500, .message "Server error"⟩) ∧
    ((∃ o ∈ (uploadDeploymentFile envFileInsertFails exampleWorldAfter exampleAttach).2.objects,
        o.key = "/payments/2.3.1/notes.pdf") ∧
      (uploadDeploymentFile envFileInsertFails exampleWorldAfter exampleAttach).1
        = ⟨500, .message "Server error"⟩) := by
  have h1 := C2_link_failure_keeps_object_and_row.1 envFileInsertFails exampleWorld
    (Deployment.create envFileInsertFails exampleWorld (some 1) (some "2.3.1")
      (some "bug fixes") 7 none).2
    (uploadFile envFileInsertFails
      (Deployment.create envFileInsertFails exampleWorld (some 1) (some "2.3.1")
        (some "bug fixes") 7 none).2 exampleFile "/payments/2.3.1/release.pdf").2
    exampleRequest exampleFile ⟨exampleRow, some "billing"⟩
    ⟨"/payments/2.3.1/release.pdf", "/payments/2.3.1/release.pdf"⟩
    ⟨"connection terminated unexpectedly"⟩ rfl (by decide) (by decide) (by decide)
  have h2 := C2_link_failure_keeps_object_and_row.2 envFileInsertFails exampleWorldAfter
    (uploadFile envFileInsertFails exampleWorldAfter exampleFile2
      "/payments/2.3.1/notes.pdf").2
    exampleAttach exampleFile2
    ⟨exampleRow, some "payments", some "billing", exampleWorldAfter.deployment_files⟩
    ⟨"/payments/2.3.1/notes.pdf", "/payments/2.3.1/notes.pdf"⟩
    ⟨"connection terminated unexpectedly"⟩ rfl (by decide) (by decide) (by decide)
  exact ⟨⟨h1.1, h1.2.2.1, h1.2.2.2.2 (by decide)⟩, ⟨h2.1, h2.2.2.2.2⟩⟩

/-! ## C3: duplicate version -/

theorem sqlEq_self {α : Type} [DecidableEq α] (a : α) : sqlEq (some a) (some a) = true := by
  simp [sqlEq]

theorem checkVersionExists_of_row (env : Env) (w : World) (s : Nat) (v : String)
    (hprobe : env.checkQuery = none)
    (hrow : ∃ d ∈ w.deployments, d.service_id = some s ∧ d.version = some v) :
    Deployment.checkVersionExists env w (some s) (some v) = .ok true := by
  obtain ⟨d, hd, hs, hv⟩ := hrow
  unfold Deployment.checkVersionExists
  simp only [hprobe]
  have hmem : d ∈ w.deployments.filter
      (fun d => sqlEq d.service_id (some s) && sqlEq d.version (some v)) := by
    rw [List.mem_filter]
    exact ⟨hd, by simp [hs, hv, sqlEq_self]⟩
  have hpos : 0 < (w.deployments.filter
      (fun d => sqlEq d.service_id (some s) && sqlEq d.version (some v))).length :=
    List.length_pos_of_mem hmem
  simp [hpos]

theorem duplicateMessage_is_duplicate :
    isDuplicateVersionMessage ⟨duplicateMessage⟩ = true := by
  decide

theorem create_duplicate (env : Env) (w : World) (s : Nat) (v : String)
    (c : Option String) (u : Nat) (b : Option String)
    (hprobe : env.checkQuery = none)
    (hrow : ∃ d ∈ w.deployments, d.service_id = some s ∧ d.version = some v) :
    Deployment.create env w (some s) (some v) c u b = (.error ⟨duplicateMessage⟩, w) := by
  unfold Deployment.create
  rw [checkVersionExists_of_row env w s v hprobe hrow]

/-- C3: a creation request with an attached file whose (serviceId, version) pair
already has a row, served while the existence-check query returns.
`Deployment.create` throws the duplicate-version error and leaves the world as it
was; `createDeploymentWithFile` answers 409 with that error's message and returns
the world it was given, so no row was inserted into either table and nothing was
put into the bucket. -/
theorem C3_duplicate_version_conflict
    (env : Env) (w : World) (req : CreateRequest) (file : UploadedFile)
    (s : Nat) (v : String)
    (hfile : req.file = some file)
    (hs : req.body.serviceId = some s) (hv : req.body.version = some v)
    (hrow : ∃ d ∈ w.deployments, d.service_id = some s ∧ d.version = some v)
    (hprobe : env.checkQuery = none) :
    Deployment.create env w req.body.serviceId req.body.version req.body.changes
      req.userId req.body.branchName = (.error ⟨duplicateMessage⟩, w) ∧
    createDeploymentWithFile env w req = (⟨409, .message duplicateMessage⟩, w) ∧
    (createDeploymentWithFile env w req).2.putLog = w.putLog ∧
    (createDeploymentWithFile env w req).2.objects = w.objects ∧
    (createDeploymentWithFile env w req).2.deployments = w.deployments ∧
    (createDeploymentWithFile env w req).2.deployment_files = w.deployment_files := by
  have hc := create_duplicate env w s v req.body.changes req.userId req.body.branchName
    hprobe hrow
  rw [← hs, ← hv] at hc
  have hout : createDeploymentWithFile env w req = (⟨409, .message duplicateMessage⟩, w) := by
    unfold createDeploymentWithFile createDeploymentWithFile.inner
    simp only [hfile, hc, duplicateMessage_is_duplicate, if_true]
  refine ⟨hc, hout, ?_, ?_, ?_, ?_⟩ <;> rw [hout]

/-- Witness for C3: `exampleRepeat` asks again for service 1, version 2.3.1 in
`exampleWorldAfter`, where that deployment exists. -/
theorem C3_duplicate_version_conflict_witness :
    Deployment.create Env.ok exampleWorldAfter exampleRepeat.body.serviceId
      exampleRepeat.body.version exampleRepeat.body.changes exampleRepeat.userId
      exampleRepeat.body.branchName = (.error ⟨duplicateMessage⟩, exampleWorldAfter) ∧
    createDeploymentWithFile Env.ok exampleWorldAfter exampleRepeat
      = (⟨409, .message duplicateMessage⟩, exampleWorldAfter) ∧
    (createDeploymentWithFile Env.ok exampleWorldAfter exampleRepeat).2.putLog
      = exampleWorldAfter.putLog ∧
    (createDeploymentWithFile Env.ok exampleWorldAfter exampleRepeat).2.objects
      = exampleWorldAfter.objects ∧
    (createDeploymentWithFile Env.ok exampleWorldAfter exampleRepeat).2.deployments
      = exampleWorldAfter.deployments ∧
    (createDeploymentWithFile Env.ok exampleWorldAfter exampleRepeat).2.deployment_files
      = exampleWorldAfter.deployment_files :=
  C3_duplicate_version_conflict Env.ok exampleWorldAfter exampleRepeat exampleFile2 1 "2.3.1"
    rfl rfl rfl ⟨exampleRow, by decide, rfl, rfl⟩ rfl

/-! ## C4: version uniqueness is preserved -/

theorem checkVersionExists_false (env : Env) (w : World) (s : Option Nat) (v : Option String)
    (h : Deployment.checkVersionExists env w s v = .ok false) :
    ∀ d ∈ w.deployments, (sqlEq d.service_id s && sqlEq d.version v) = false := by
  unfold Deployment.checkVersionExists at h
  cases hq : env.checkQuery with
  | some m => simp [hq] at h
  | none =>
    simp only [hq, Except.ok.injEq, decide_eq_false_iff_not, not_lt, Nat.le_zero,
      List.length_eq_zero] at h
    intro d hd
    by_contra hne
    have hmem : d ∈ w.deployments.filter
        (fun d => sqlEq d.service_id s && sqlEq d.version v) := by
      rw [List.mem_filter]
      exact ⟨hd, by simpa using hne⟩
    rw [h] at hmem
    exact List.not_mem_nil _ hmem

theorem versionUnique_append (rows : List DeploymentRow) (row : DeploymentRow)
    (h : VersionUnique rows) (hnew : ∀ d ∈ rows, sameVersionKey d row = false) :
    VersionUnique (rows ++ [row]) := by
  unfold VersionUnique at h ⊢
  rw [List.pairwise_append]
  refine ⟨h, List.pairwise_singleton _ _, ?_⟩
  intro a ha b hb
  rw [List.mem_singleton] at hb
  subst hb
  exact hnew a ha

theorem versionUnique_filter (rows : List DeploymentRow) (p : DeploymentRow → Bool)
    (h : VersionUnique rows) : VersionUnique (rows.filter p) :=
  List.Pairwise.sublist (List.filter_sublist rows) h

theorem create_preserves_unique (env : Env) (w : World) (s : Option Nat)
    (v c : Option String) (u : Nat) (b : Option String)
    (hs : s.isSome = true) (hv : v.isSome = true)
    (h : VersionUnique w.deployments) :
    VersionUnique (Deployment.create env w s v c u b).2.deployments := by
  cases hres : Deployment.create env w s v c u b with
  | mk r w1 =>
    cases r with
    | error e =>
      have := create_error_world env w s v c u b e (by rw [hres])
      rw [hres] at this
      simp only at this ⊢
      rw [this]
      exact h
    | ok d =>
      obtain ⟨hcheck, hrow, hw1⟩ := create_ok env w w1 s v c u b d hres
      simp only
      rw [hw1]
      apply versionUnique_append _ _ h
      intro a ha
      have hno := checkVersionExists_false env w s v hcheck a ha
      rw [hrow]
      obtain ⟨s1, rfl⟩ := Option.isSome_iff_exists.mp hs
      obtain ⟨v1, rfl⟩ := Option.isSome_iff_exists.mp hv
      by_contra hsame
      simp only [sameVersionKey, Bool.not_eq_false, decide_eq_true_eq] at hsame
      rw [hsame.1, hsame.2, sqlEq_self, sqlEq_self] at hno
      exact absurd hno (by decide)

theorem delete_preserves_unique (env : Env) (w : World) (id : Nat)
    (h : VersionUnique w.deployments) :
    VersionUnique (Deployment.delete env w id).2.deployments := by
  unfold Deployment.delete
  cases env.deleteFilesQuery with
  | some m => exact h
  | none =>
    cases env.deleteQuery with
    | some m => exact h
    | none => exact versionUnique_filter _ _ h

theorem uploadFile_deployments (env : Env) (w : World) (file : UploadedFile) (key : String) :
    (uploadFile env w file key).2.deployments = w.deployments := by
  unfold uploadFile
  cases readFileSync w file.path with
  | none => rfl
  | some content =>
    cases env.upload with
    | some m => rfl
    | none => rfl

theorem fileCreate_deployments (env : Env) (w : World) (depId : Nat)
    (name path type : String) (size user : Nat) :
    (DeploymentFile.create env w depId name path type size user).2.deployments
      = w.deployments := by
  unfold DeploymentFile.create
  cases env.fileInsert with
  | some m => rfl
  | none =>
    by_cases hex : (w.deployments.any fun d => d.id == depId) = true
    · simp [hex]
    · simp [hex]

theorem unlinkSync_deployments (w : World) (path : String) :
    (unlinkSync w path).2.deployments = w.deployments := by
  unfold unlinkSync
  by_cases hex : existsSync w path = true
  · simp [hex]
  · simp [hex]

theorem createInner_deployments (env : Env) (w : World) (req : CreateRequest)
    (file : UploadedFile) :
    (createDeploymentWithFile.inner env w req file).2.deployments
      = (Deployment.create env w req.body.serviceId req.body.version req.body.changes
          req.userId req.body.branchName).2.deployments := by
  unfold createDeploymentWithFile.inner
  cases hres : Deployment.create env w req.body.serviceId req.body.version req.body.changes
      req.userId req.body.branchName with
  | mk r w1 =>
    cases r with
    | error e => rfl
    | ok d =>
      simp only
      have h2 := uploadFile_deployments env w1 file
        (s3KeyTemplate (getServiceName env w req.body.serviceId) req.body.version
          file.originalname)
      cases hu : uploadFile env w1 file
        (s3KeyTemplate (getServiceName env w req.body.serviceId) req.body.version
          file.originalname) with
      | mk r2 w2 =>
        rw [hu] at h2
        cases r2 with
        | error e => exact h2
        | ok data =>
          simp only
          have h3 := fileCreate_deployments env w2 d.row.id file.originalname data.Key
            ((env.extname file.originalname).drop 1) file.size req.userId
          cases hf : DeploymentFile.create env w2 d.row.id file.originalname data.Key
            ((env.extname file.originalname).drop 1) file.size req.userId with
          | mk r3 w3 =>
            rw [hf] at h3
            cases r3 with
            | error e => exact h3.trans h2
            | ok fileRow =>
              simp only
              have h4 := unlinkSync_deployments w3 file.path
              cases hx : unlinkSync w3 file.path with
              | mk r4 w4 =>
                rw [hx] at h4
                cases r4 with
                | error e => exact (h4.trans h3).trans h2
                | ok _ => exact (h4.trans h3).trans h2

theorem createDeploymentWithFile_deployments (env : Env) (w : World) (req : CreateRequest) :
    (createDeploymentWithFile env w req).2.deployments = w.deployments ∨
    (createDeploymentWithFile env w req).2.deployments
      = (Deployment.create env w req.body.serviceId req.body.version req.body.changes
          req.userId req.body.branchName).2.deployments := by
  unfold createDeploymentWithFile
  cases hfile : req.file with
  | none => exact Or.inl rfl
  | some file =>
    right
    have h := createInner_deployments env w req file
    dsimp only
    cases hin : createDeploymentWithFile.inner env w req file with
    | mk r w1 =>
      rw [hin] at h
      cases r with
      | ok res => exact h
      | error e =>
        dsimp only
        by_cases hdup : isDuplicateVersionMessage e = true
        · rw [if_pos hdup]; exact h
        · rw [if_neg hdup, cleanupTempFile_deployments]; exact h

theorem createDeployment_deployments (env : Env) (w : World) (req : CreateRequest) :
    (createDeployment env w req).2.deployments
      = (Deployment.create env w req.body.serviceId req.body.version req.body.changes
          req.userId req.body.branchName).2.deployments := by
  unfold createDeployment
  cases hres : Deployment.create env w req.body.serviceId req.body.version req.body.changes
      req.userId req.body.branchName with
  | mk r w1 =>
    cases r with
    | ok d => rfl
    | error e =>
      simp only
      by_cases hdup : isDuplicateVersionMessage e = true
      · simp only [hdup, if_true]
      · simp only [hdup, if_false, Bool.false_eq_true]

theorem uploadInner_deployments (env : Env) (w : World) (req : UploadRequest)
    (file : UploadedFile) :
    (uploadDeploymentFile.inner env w req file).2.deployments = w.deployments := by
  unfold uploadDeploymentFile.inner
  cases Deployment.findById env w req.deploymentId with
  | error e => rfl
  | ok found =>
    cases found with
    | none => rfl
    | some dep =>
      simp only
      have h2 := uploadFile_deployments env w file
        (s3KeyOfRow (jsOrString dep.service_name (getServiceName env w dep.row.service_id))
          dep.row.version file.originalname)
      cases hu : uploadFile env w file
        (s3KeyOfRow (jsOrString dep.service_name (getServiceName env w dep.row.service_id))
          dep.row.version file.originalname) with
      | mk r2 w2 =>
        rw [hu] at h2
        cases r2 with
        | error e => exact h2
        | ok data =>
          simp only
          have h3 := fileCreate_deployments env w2 req.deploymentId file.originalname data.Key
            ((env.extname file.originalname).drop 1) file.size req.userId
          cases hf : DeploymentFile.create env w2 req.deploymentId file.originalname data.Key
            ((env.extname file.originalname).drop 1) file.size req.userId with
          | mk r3 w3 =>
            rw [hf] at h3
            cases r3 with
            | error e => exact h3.trans h2
            | ok fileRow =>
              simp only
              have h4 := unlinkSync_deployments w3 file.path
              cases hx : unlinkSync w3 file.path with
              | mk r4 w4 =>
                rw [hx] at h4
                cases r4 with
                | error e => exact (h4.trans h3).trans h2
                | ok _ => exact (h4.trans h3).trans h2

theorem uploadDeploymentFile_deployments (env : Env) (w : World) (req : UploadRequest) :
    (uploadDeploymentFile env w req).2.deployments = w.deployments := by
  unfold uploadDeploymentFile
  cases hfile : req.file with
  | none => rfl
  | some file =>
    have h := uploadInner_deployments env w req file
    dsimp only
    cases hin : uploadDeploymentFile.inner env w req file with
    | mk r w1 =>
      rw [hin] at h
      cases r with
      | ok res => exact h
      | error e => dsimp only; rw [cleanupTempFile_deployments]; exact h

theorem op_preserves_unique (env : Env) (w : World) (op : Op)
    (hp : op.fieldsPresent = true)
    (h : VersionUnique w.deployments) : VersionUnique (op.run env w).deployments := by
  cases op with
  | create s v c u b =>
    simp only [Op.fieldsPresent, Bool.and_eq_true] at hp
    exact create_preserves_unique env w s v c u b hp.1 hp.2 h
  | delete id => exact delete_preserves_unique env w id h
  | createDeploymentWithFile req =>
    simp only [Op.fieldsPresent, Bool.and_eq_true] at hp
    show VersionUnique (createDeploymentWithFile env w req).2.deployments
    rcases createDeploymentWithFile_deployments env w req with h1 | h1
    · rw [h1]; exact h
    · rw [h1]; exact create_preserves_unique env w _ _ _ _ _ hp.1 hp.2 h
  | createDeployment req =>
    simp only [Op.fieldsPresent, Bool.and_eq_true] at hp
    show VersionUnique (createDeployment env w req).2.deployments
    rw [createDeployment_deployments]
    exact create_preserves_unique env w _ _ _ _ _ hp.1 hp.2 h
  | uploadDeploymentFile req =>
    show VersionUnique (uploadDeploymentFile env w req).2.deployments
    rw [uploadDeploymentFile_deployments]
    exact h

theorem runOps_preserves_unique (ops : List (Env × Op)) :
    ∀ w : World, (∀ p ∈ ops, p.2.fieldsPresent = true) →
      VersionUnique w.deployments → VersionUnique (runOps w ops).deployments := by
  induction ops with
  | nil => intro w _ h; exact h
  | cons head rest ih =>
    intro w hp h
    obtain ⟨env, op⟩ := head
    exact ih (op.run env w) (fun p hmem => hp p (List.mem_cons_of_mem _ hmem))
      (op_preserves_unique env w op (hp (env, op) (List.mem_cons_self _ _)) h)

/-- C4, as stated, fails.  `exampleNoVersion` asks `createDeployment` for a
deployment of service 1 without a version.  After a first call the table has one
row and no two rows share a pair.  The existence check of a second call compares
the missing version with SQL equality, finds nothing, and the call inserts a
second row with the same service id and the same missing version: two rows share
the pair. -/
theorem C4_counterexample :
    VersionUnique
      ((Op.createDeployment exampleNoVersion).run Env.ok exampleWorld).deployments ∧
    (createDeployment Env.ok
      ((Op.createDeployment exampleNoVersion).run Env.ok exampleWorld)
      exampleNoVersion).1.status = 201 ∧
    ((Op.createDeployment exampleNoVersion).run Env.ok
        ((Op.createDeployment exampleNoVersion).run Env.ok exampleWorld)).deployments
      = [⟨1, some 1, none, some "bug fixes", 7, "main"⟩,
         ⟨2, some 1, none, some "bug fixes", 7, "main"⟩] ∧
    ¬ VersionUnique
      ((Op.createDeployment exampleNoVersion).run Env.ok
        ((Op.createDeployment exampleNoVersion).run Env.ok exampleWorld)).deployments := by
  unfold VersionUnique
  decide

/-- C4, amended: version uniqueness is an invariant of the deployments table
under sequential execution as long as deployments are created with both a service
id and a version.  If no two rows share a (service_id, version) pair, then after
any one of `Deployment.create`, `createDeploymentWithFile` and `createDeployment`
called with a service id and a version, and after `Deployment.delete` and
`uploadDeploymentFile`, run in any environment and whether it succeeds or fails,
still no two rows share a pair; hence the same holds after any sequence of such
operations run one after the other. -/
theorem C4_version_uniqueness_invariant (w : World) (h : VersionUnique w.deployments) :
    (∀ (env : Env) (op : Op), op.fieldsPresent = true →
      VersionUnique (op.run env w).deployments) ∧
    (∀ ops : List (Env × Op), (∀ p ∈ ops, p.2.fieldsPresent = true) →
      VersionUnique (runOps w ops).deployments) :=
  ⟨fun env op hp => op_preserves_unique env w op hp h,
   fun ops hp => runOps_preserves_unique ops w hp h⟩

/-- Witness for C4: `exampleWorldAfter` has unique versions, and keeps them when
the deployment of service 1, version 2.3.1 is requested again and when a new
version is created and deployment 1 deleted. -/
theorem C4_version_uniqueness_invariant_witness :
    VersionUnique exampleWorldAfter.deployments ∧
    VersionUnique
      ((Op.createDeploymentWithFile exampleRepeat).run Env.ok exampleWorldAfter).deployments ∧
    VersionUnique
      (runOps exampleWorldAfter
        [(Env.ok, Op.create (some 1) (some "2.4.0") none 7 none),
         (Env.ok, Op.delete 1)]).deployments :=
  ⟨by unfold VersionUnique; decide,
   (C4_version_uniqueness_invariant exampleWorldAfter (by unfold VersionUnique; decide)).1
     Env.ok (Op.createDeploymentWithFile exampleRepeat) (by decide),
   (C4_version_uniqueness_invariant exampleWorldAfter (by unfold VersionUnique; decide)).2
     [(Env.ok, Op.create (some 1) (some "2.4.0") none 7 none), (Env.ok, Op.delete 1)]
     (by decide)⟩

/-! ## C5: two concurrent `Deployment.create` calls -/

theorem phase_step_simulates (p : CreateProc) (w : World) (s : Nat) (v : String)
    (hs : p.args.serviceId = some s) (hv : p.args.version = some v)
    (hc : p.env.checkQuery = none) (hl : p.env.serviceQuery = none)
    (hi : p.env.insertQuery = none) :
    (p.step w).1.phase = (phaseStep p.phase (rowsFor w s v).length).1 ∧
    (rowsFor (p.step w).2 s v).length = (phaseStep p.phase (rowsFor w s v).length).2 ∧
    (p.step w).1.env = p.env ∧ (p.step w).1.args = p.args := by
  obtain ⟨env, args, pc⟩ := p
  simp only at hs hv hc hl hi
  cases pc with
  | atCheck =>
    by_cases hpos : 0 < (rowsFor w s v).length
    · have hpos2 := hpos
      unfold rowsFor at hpos2
      simp [CreateProc.step, CreateProc.phase, phaseStep, Deployment.checkVersionExists,
        hs, hv, hc, hpos, hpos2]
    · have hpos2 := hpos
      unfold rowsFor at hpos2
      simp [CreateProc.step, CreateProc.phase, phaseStep, Deployment.checkVersionExists,
        hs, hv, hc, hpos, hpos2]
  | atLookup =>
    simp [CreateProc.step, CreateProc.phase, phaseStep, Deployment.lookupApplication, hl]
  | atInsert application =>
    simp [CreateProc.step, CreateProc.phase, phaseStep, Deployment.insertRow, hi, rowsFor,
      List.filter_append, hs, hv, sqlEq_self]
  | finished r =>
    cases r with
    | ok d => simp [CreateProc.step, CreateProc.phase, phaseStep]
    | error e =>
      by_cases hd : e.message = duplicateMessage
      · simp [CreateProc.step, CreateProc.phase, phaseStep, hd]
      · simp [CreateProc.step, CreateProc.phase, phaseStep, hd]

theorem race_run_simulates (s : Nat) (v : String) (schedule : List Bool) :
    ∀ r : Race,
      r.first.args.serviceId = some s → r.first.args.version = some v →
      r.second.args.serviceId = some s → r.second.args.version = some v →
      r.first.env.checkQuery = none → r.first.env.serviceQuery = none →
      r.first.env.insertQuery = none →
      r.second.env.checkQuery = none → r.second.env.serviceQuery = none →
      r.second.env.insertQuery = none →
      (r.run schedule).summary s v = (r.summary s v).run schedule := by
  induction schedule with
  | nil => intros; rfl
  | cons who rest ih =>
    intro r h1s h1v h2s h2v h1c h1l h1i h2c h2l h2i
    cases who with
    | false =>
      obtain ⟨hp, hn, he, ha⟩ := phase_step_simulates r.first r.world s v h1s h1v h1c h1l h1i
      have hstep : (r.step false).summary s v = (r.summary s v).step false := by
        simp [Race.step, Race.summary, RaceSummary.step, hp, hn]
      show ((r.step false).run rest).summary s v = ((r.summary s v).step false).run rest
      rw [← hstep]
      apply ih
      all_goals simp [Race.step, he, ha, h1s, h1v, h2s, h2v, h1c, h1l, h1i, h2c, h2l, h2i]
    | true =>
      obtain ⟨hp, hn, he, ha⟩ := phase_step_simulates r.second r.world s v h2s h2v h2c h2l h2i
      have hstep : (r.step true).summary s v = (r.summary s v).step true := by
        simp [Race.step, Race.summary, RaceSummary.step, hp, hn]
      show ((r.step true).run rest).summary s v = ((r.summary s v).step true).run rest
      rw [← hstep]
      apply ih
      all_goals simp [Race.step, he, ha, h1s, h1v, h2s, h2v, h1c, h1l, h1i, h2c, h2l, h2i]

theorem summary_outcomes :
    ∀ a b c d e f : Bool, isInterleaving [a, b, c, d, e, f] = true →
      (isSerial [a, b, c, d, e, f] = true →
        (((RaceSummary.mk .check .check 0).run [a, b, c, d, e, f]).first = .returned ∧
            ((RaceSummary.mk .check .check 0).run [a, b, c, d, e, f]).second = .duplicate ∨
          ((RaceSummary.mk .check .check 0).run [a, b, c, d, e, f]).second = .returned ∧
            ((RaceSummary.mk .check .check 0).run [a, b, c, d, e, f]).first = .duplicate) ∧
        ((RaceSummary.mk .check .check 0).run [a, b, c, d, e, f]).rows = 1) ∧
      (isSerial [a, b, c, d, e, f] = false →
        ((RaceSummary.mk .check .check 0).run [a, b, c, d, e, f]).first = .returned ∧
        ((RaceSummary.mk .check .check 0).run [a, b, c, d, e, f]).second = .returned ∧
        ((RaceSummary.mk .check .check 0).run [a, b, c, d, e, f]).rows = 2) := by
  decide

theorem interleaving_six (schedule : List Bool) (h : isInterleaving schedule = true) :
    ∃ a b c d e f : Bool, schedule = [a, b, c, d, e, f] := by
  have hlen : schedule.length = 6 := by
    have := List.count_false_add_count_true schedule
    simp only [isInterleaving, Bool.and_eq_true, beq_iff_eq] at h
    omega
  match schedule, hlen with
  | [a, b, c, d, e, f], _ => exact ⟨a, b, c, d, e, f, rfl⟩

theorem phase_returned (p : CreateProc) (h : p.phase = .returned) : p.succeeded = true := by
  obtain ⟨env, args, pc⟩ := p
  cases pc with
  | finished r =>
    cases r with
    | ok d => rfl
    | error e =>
      by_cases hd : e.message = duplicateMessage <;> simp [CreateProc.phase, hd] at h
  | atCheck => simp [CreateProc.phase] at h
  | atLookup => simp [CreateProc.phase] at h
  | atInsert a => simp [CreateProc.phase] at h

theorem phase_duplicate (p : CreateProc) (h : p.phase = .duplicate) :
    p.failedDuplicate = true ∧ p.succeeded = false := by
  obtain ⟨env, args, pc⟩ := p
  cases pc with
  | finished r =>
    cases r with
    | ok d => simp [CreateProc.phase] at h
    | error e =>
      by_cases hd : e.message = duplicateMessage
      · simp [CreateProc.failedDuplicate, CreateProc.succeeded, hd]
      · simp [CreateProc.phase, hd] at h
  | atCheck => simp [CreateProc.phase] at h
  | atLookup => simp [CreateProc.phase] at h
  | atInsert a => simp [CreateProc.phase] at h

/-- C5, as stated, fails.  Two calls for service 1, version 2.3.1 are issued
together in `exampleWorld`, which has no row for that pair, and the event loop
alternates between them.  Both existence checks run before either insert, so both
calls return a deployment, neither throws the duplicate-version error, and two
rows for the pair exist afterwards. -/
theorem C5_counterexample :
    rowsFor exampleWorld 1 "2.3.1" = [] ∧
    isInterleaving [false, true, false, true, false, true] = true ∧
    (exampleRace.run [false, true, false, true, false, true]).first.succeeded = true ∧
    (exampleRace.run [false, true, false, true, false, true]).second.succeeded = true ∧
    (exampleRace.run [false, true, false, true, false, true]).first.failedDuplicate = false ∧
    (exampleRace.run [false, true, false, true, false, true]).second.failedDuplicate = false ∧
    (rowsFor (exampleRace.run [false, true, false, true, false, true]).world 1 "2.3.1").length
      = 2 := by
  decide

/-- C5, amended: take a (serviceId, version) pair with no existing row and two
`Deployment.create` calls with that pair, none of whose queries fails, run along
any interleaving of their steps.  If one call has finished before the other
starts, exactly one call returns a deployment, the other throws the
duplicate-version error, and exactly one row for the pair exists afterwards.  In
every other interleaving both existence checks precede both inserts: both calls
return a deployment and two rows for the pair exist afterwards. -/
theorem C5_race_outcomes (w : World) (s : Nat) (v : String) (env1 env2 : Env)
    (args1 args2 : CreateArgs) (schedule : List Bool)
    (hnone : rowsFor w s v = [])
    (h1s : args1.serviceId = some s) (h1v : args1.version = some v)
    (h2s : args2.serviceId = some s) (h2v : args2.version = some v)
    (h1c : env1.checkQuery = none) (h1l : env1.serviceQuery = none)
    (h1i : env1.insertQuery = none)
    (h2c : env2.checkQuery = none) (h2l : env2.serviceQuery = none)
    (h2i : env2.insertQuery = none)
    (hsched : isInterleaving schedule = true) :
    (isSerial schedule = true →
      (((Race.mk (CreateProc.start env1 args1) (CreateProc.start env2 args2) w).run
            schedule).first.succeeded = true ∧
          ((Race.mk (CreateProc.start env1 args1) (CreateProc.start env2 args2) w).run
            schedule).second.succeeded = false ∧
          ((Race.mk (CreateProc.start env1 args1) (CreateProc.start env2 args2) w).run
            schedule).second.failedDuplicate = true ∨
        ((Race.mk (CreateProc.start env1 args1) (CreateProc.start env2 args2) w).run
            schedule).second.succeeded = true ∧
          ((Race.mk (CreateProc.start env1 args1) (CreateProc.start env2 args2) w).run
            schedule).first.succeeded = false ∧
          ((Race.mk (CreateProc.start env1 args1) (CreateProc.start env2 args2) w).run
            schedule).first.failedDuplicate = true) ∧
      (rowsFor ((Race.mk (CreateProc.start env1 args1) (CreateProc.start env2 args2) w).run
        schedule).world s v).length = 1) ∧
    (isSerial schedule = false →
      ((Race.mk (CreateProc.start env1 args1) (CreateProc.start env2 args2) w).run
        schedule).first.succeeded = true ∧
      ((Race.mk (CreateProc.start env1 args1) (CreateProc.start env2 args2) w).run
        schedule).second.succeeded = true ∧
      (rowsFor ((Race.mk (CreateProc.start env1 args1) (CreateProc.start env2 args2) w).run
        schedule).world s v).length = 2) := by
  obtain ⟨a, b, c, d, e, f, rfl⟩ := interleaving_six schedule hsched
  have hsim := race_run_simulates s v [a, b, c, d, e, f]
    (Race.mk (CreateProc.start env1 args1) (CreateProc.start env2 args2) w)
    h1s h1v h2s h2v h1c h1l h1i h2c h2l h2i
  have hinit : (Race.mk (CreateProc.start env1 args1) (CreateProc.start env2 args2) w).summary
      s v = RaceSummary.mk .check .check 0 := by
    simp [Race.summary, CreateProc.start, CreateProc.phase, hnone]
  rw [hinit] at hsim
  obtain ⟨hser, hpar⟩ := summary_outcomes a b c d e f hsched
  rw [← hsim] at hser hpar
  simp only [Race.summary] at hser hpar
  constructor
  · intro h
    obtain ⟨hwho, hrows⟩ := hser h
    refine ⟨?_, hrows⟩
    rcases hwho with ⟨h1, h2⟩ | ⟨h1, h2⟩
    · exact Or.inl ⟨phase_returned _ h1, (phase_duplicate _ h2).2, (phase_duplicate _ h2).1⟩
    · exact Or.inr ⟨phase_returned _ h1, (phase_duplicate _ h2).2, (phase_duplicate _ h2).1⟩
  · intro h
    obtain ⟨h1, h2, hrows⟩ := hpar h
    exact ⟨phase_returned _ h1, phase_returned _ h2, hrows⟩

/-- Witness for C5: the amended statement applied to the two example calls run
one after the other in `exampleWorld`. -/
theorem C5_race_outcomes_witness :
    ((exampleRace.run [false, false, false, true, true, true]).first.succeeded = true ∧
        (exampleRace.run [false, false, false, true, true, true]).second.succeeded = false ∧
        (exampleRace.run [false, false, false, true, true, true]).second.failedDuplicate = true ∨
      (exampleRace.run [false, false, false, true, true, true]).second.succeeded = true ∧
        (exampleRace.run [false, false, false, true, true, true]).first.succeeded = false ∧
        (exampleRace.run [false, false, false, true, true, true]).first.failedDuplicate = true) ∧
    (rowsFor (exampleRace.run [false, false, false, true, true, true]).world 1 "2.3.1").length
      = 1 :=
  (C5_race_outcomes exampleWorld 1 "2.3.1" Env.ok Env.ok exampleArgs exampleArgs
    [false, false, false, true, true, true] (by decide) rfl rfl rfl rfl rfl rfl rfl rfl rfl rfl
    (by decide)).1 (by decide)

/-- A call resumed three times with nothing in between does what
`Deployment.create` does: the step model refines the sequential method. -/
theorem create_steps_agree (env : Env) (w : World) (args : CreateArgs) :
    ((Race.mk (CreateProc.start env args) (CreateProc.start env args) w).run
        [false, false, false]).first.pc
      = .finished (Deployment.create env w args.serviceId args.version args.changes
          args.userId args.branchName).1 ∧
    ((Race.mk (CreateProc.start env args) (CreateProc.start env args) w).run
        [false, false, false]).world
      = (Deployment.create env w args.serviceId args.version args.changes
          args.userId args.branchName).2 := by
  simp only [Race.run, Race.step, CreateProc.start, CreateProc.step, Deployment.create]
  cases hc : Deployment.checkVersionExists env w args.serviceId args.version with
  | error e => simp [CreateProc.step]
  | ok exists_ =>
    cases exists_ with
    | true => simp [CreateProc.step]
    | false =>
      cases hl : Deployment.lookupApplication env w args.serviceId with
      | error e => simp [CreateProc.step, hl]
      | ok application =>
        cases hi : Deployment.insertRow env w args.serviceId args.version args.changes
            args.userId args.branchName with
        | mk r w1 =>
          cases r with
          | error e => simp [CreateProc.step, hl, hi]
          | ok row => simp [CreateProc.step, hl, hi]

/-! ## C6: the storage key -/

/-- C6: for all strings `serviceName`, `version` and `originalFilename` the
storage key built by the workflow, in `createDeploymentWithFile` as well as in
`uploadDeploymentFile`, is "/" ++ serviceName ++ "/" ++ version ++ "/" ++
originalFilename; its characters are a slash, the characters of the service name,
a slash, those of the version, a slash and those of the file name, each input
unchanged; the key for ("svc", "1.0.0", "a.pdf") is "/svc/1.0.0/a.pdf". -/
theorem C6_storage_key_is_concatenation (serviceName version originalFilename : String) :
    s3KeyTemplate serviceName (some version) originalFilename
      = "/" ++ serviceName ++ "/" ++ version ++ "/" ++ originalFilename ∧
    s3KeyOfRow serviceName (some version) originalFilename
      = "/" ++ serviceName ++ "/" ++ version ++ "/" ++ originalFilename ∧
    (s3KeyTemplate serviceName (some version) originalFilename).data
      = '/' :: serviceName.data ++ '/' :: version.data ++ '/' :: originalFilename.data ∧
    (s3KeyTemplate serviceName (some version) originalFilename).length
      = serviceName.length + version.length + originalFilename.length + 3 ∧
    s3KeyTemplate "svc" (some "1.0.0") "a.pdf" = "/svc/1.0.0/a.pdf" ∧
    s3KeyOfRow "svc" (some "1.0.0") "a.pdf" = "/svc/1.0.0/a.pdf" := by
  refine ⟨rfl, rfl, ?_, ?_, by decide, by decide⟩
  · simp [s3KeyTemplate, jsToString]
  · have hslash : "/".length = 1 := rfl
    simp only [s3KeyTemplate, jsToString, String.length_append, hslash]
    omega

/-! ## C7: successful creation -/

theorem existsSync_of_read (w : World) (path : String) (content : List Nat)
    (h : readFileSync w path = some content) : existsSync w path = true := by
  unfold readFileSync at h
  unfold existsSync
  cases hf : w.tempFiles.find? (fun f => f.1 == path) with
  | none => simp [hf] at h
  | some f =>
    rw [List.any_eq_true]
    have hp := List.find?_some hf
    exact ⟨f, List.mem_of_find?_eq_some hf, hp⟩

theorem uploadFile_success (env : Env) (w : World) (file : UploadedFile) (key : String)
    (content : List Nat) (hstaged : readFileSync w file.path = some content)
    (hupload : env.upload = none) :
    uploadFile env w file key =
      (.ok ⟨env.uploadKey key, key⟩,
       { w with
         objects := putObject w.objects ⟨key, content, file.mimetype⟩
         putLog := w.putLog ++ [key] }) := by
  unfold uploadFile
  simp only [hstaged, hupload]

theorem fileCreate_success (env : Env) (w : World) (depId : Nat)
    (name path type : String) (size user : Nat)
    (hlink : env.fileInsert = none)
    (hdep : (w.deployments.any fun d => d.id == depId) = true) :
    DeploymentFile.create env w depId name path type size user =
      (.ok ⟨w.nextFileId, depId, name, path, type, size, user⟩,
       { w with
         deployment_files := w.deployment_files ++
           [⟨w.nextFileId, depId, name, path, type, size, user⟩]
         nextFileId := w.nextFileId + 1 }) := by
  unfold DeploymentFile.create
  simp only [hlink, hdep, if_true]

theorem unlinkSync_success (w : World) (path : String) (hex : existsSync w path = true) :
    unlinkSync w path =
      (.ok (), { w with tempFiles := w.tempFiles.filter (fun f => !(f.1 == path)) }) := by
  unfold unlinkSync
  simp only [hex, if_true]

/-- The exact outcome of `createDeploymentWithFile` when no step fails. -/
theorem createDeploymentWithFile_success
    (env : Env) (w : World) (req : CreateRequest) (file : UploadedFile) (content : List Nat)
    (hfile : req.file = some file)
    (hstaged : readFileSync w file.path = some content)
    (hfresh : ∀ d ∈ w.deployments,
      (sqlEq d.service_id req.body.serviceId && sqlEq d.version req.body.version) = false)
    (hcheck : env.checkQuery = none) (hservice : env.serviceQuery = none)
    (hinsert : env.insertQuery = none) (hupload : env.upload = none)
    (hlink : env.fileInsert = none) :
    createDeploymentWithFile env w req =
      (⟨201, .deploymentAndFile
          ⟨⟨w.nextDeploymentId, req.body.serviceId, req.body.version, req.body.changes,
              req.userId, jsOrString req.body.branchName "main"⟩,
            ((w.services.filter (fun s => sqlEq (some s.id) req.body.serviceId)).head?).bind
              (fun s => s.application)⟩
          ⟨w.nextFileId, w.nextDeploymentId, file.originalname,
            env.uploadKey (s3KeyTemplate (getServiceName env w req.body.serviceId)
              req.body.version file.originalname),
            (env.extname file.originalname).drop 1, file.size, req.userId⟩⟩,
       { w with
         deployments := w.deployments ++
           [⟨w.nextDeploymentId, req.body.serviceId, req.body.version, req.body.changes,
              req.userId, jsOrString req.body.branchName "main"⟩]
         nextDeploymentId := w.nextDeploymentId + 1
         objects := putObject w.objects
           ⟨s3KeyTemplate (getServiceName env w req.body.serviceId) req.body.version
              file.originalname, content, file.mimetype⟩
         putLog := w.putLog ++
           [s3KeyTemplate (getServiceName env w req.body.serviceId) req.body.version
              file.originalname]
         deployment_files := w.deployment_files ++
           [⟨w.nextFileId, w.nextDeploymentId, file.originalname,
              env.uploadKey (s3KeyTemplate (getServiceName env w req.body.serviceId)
                req.body.version file.originalname),
              (env.extname file.originalname).drop 1, file.size, req.userId⟩]
         nextFileId := w.nextFileId + 1
         tempFiles := w.tempFiles.filter (fun f => !(f.1 == file.path)) }) := by
  have hex := existsSync_of_read w file.path content hstaged
  have hnone : w.deployments.filter
      (fun d => sqlEq d.service_id req.body.serviceId && sqlEq d.version req.body.version)
      = [] := by
    rw [List.filter_eq_nil_iff]
    intro d hd
    simp [hfresh d hd]
  have hcreate : Deployment.create env w req.body.serviceId req.body.version req.body.changes
      req.userId req.body.branchName =
      (.ok ⟨⟨w.nextDeploymentId, req.body.serviceId, req.body.version, req.body.changes,
              req.userId, jsOrString req.body.branchName "main"⟩,
            ((w.services.filter (fun s => sqlEq (some s.id) req.body.serviceId)).head?).bind
              (fun s => s.application)⟩,
        { w with
          deployments := w.deployments ++
            [⟨w.nextDeploymentId, req.body.serviceId, req.body.version, req.body.changes,
              req.userId, jsOrString req.body.branchName "main"⟩]
          nextDeploymentId := w.nextDeploymentId + 1 }) := by
    simp [Deployment.create, Deployment.checkVersionExists, Deployment.lookupApplication,
      Deployment.insertRow, hcheck, hservice, hinsert, hnone]
  unfold createDeploymentWithFile createDeploymentWithFile.inner
  simp only [hfile, hcreate]
  rw [uploadFile_success env _ file _ content ?_ hupload]
  · simp only
    rw [fileCreate_success env _ _ _ _ _ _ _ hlink (by simp)]
    simp only
    rw [unlinkSync_success _ file.path ?_]
    exact hex
  · exact hstaged

/-- C7: a creation request with an attached file and a version, served while no
step fails (the staged copy is readable, the pair has no row yet, no query and no
upload throws) and the object store reports back the key it was given.
`createDeploymentWithFile` answers 201 with a deployment and a file record such
that: the deployment has the requested version and is the one row the call added
to the deployments table; the file record has storage key "/" ++ serviceName ++
"/" ++ version ++ "/" ++ originalFilename, carries the id of that deployment and
is the one row added to deployment_files; and the bucket holds an object with the
uploaded bytes under that key. -/
theorem C7_successful_creation
    (env : Env) (w : World) (req : CreateRequest) (file : UploadedFile) (v : String)
    (content : List Nat)
    (hfile : req.file = some file)
    (hv : req.body.version = some v)
    (hstaged : readFileSync w file.path = some content)
    (hfresh : ∀ d ∈ w.deployments,
      (sqlEq d.service_id req.body.serviceId && sqlEq d.version (some v)) = false)
    (hcheck : env.checkQuery = none) (hservice : env.serviceQuery = none)
    (hinsert : env.insertQuery = none) (hupload : env.upload = none)
    (hlink : env.fileInsert = none)
    (hecho : env.uploadKey
      ("/" ++ getServiceName env w req.body.serviceId ++ "/" ++ v ++ "/" ++ file.originalname)
      = "/" ++ getServiceName env w req.body.serviceId ++ "/" ++ v ++ "/" ++ file.originalname) :
    ∃ (deployment : CreatedDeployment) (fileRow : FileRow),
      (createDeploymentWithFile env w req).1 = ⟨201, .deploymentAndFile deployment fileRow⟩ ∧
      deployment.row.version = some v ∧
      fileRow.file_path
        = "/" ++ getServiceName env w req.body.serviceId ++ "/" ++ v ++ "/" ++ file.originalname ∧
      fileRow.deployment_id = deployment.row.id ∧
      (createDeploymentWithFile env w req).2.deployments = w.deployments ++ [deployment.row] ∧
      (createDeploymentWithFile env w req).2.deployment_files
        = w.deployment_files ++ [fileRow] ∧
      (∃ o ∈ (createDeploymentWithFile env w req).2.objects,
        o.key = fileRow.file_path ∧ o.body = content) := by
  have hfresh2 : ∀ d ∈ w.deployments,
      (sqlEq d.service_id req.body.serviceId && sqlEq d.version req.body.version) = false := by
    rw [hv]; exact hfresh
  have hkey : s3KeyTemplate (getServiceName env w req.body.serviceId) req.body.version
      file.originalname
      = "/" ++ getServiceName env w req.body.serviceId ++ "/" ++ v ++ "/" ++ file.originalname := by
    rw [hv]; rfl
  have hout := createDeploymentWithFile_success env w req file content hfile hstaged hfresh2
    hcheck hservice hinsert hupload hlink
  rw [hkey, hecho] at hout
  rw [hout]
  refine ⟨_, _, rfl, hv, rfl, rfl, rfl, rfl, ?_⟩
  exact ⟨_, putObject_mem _ _, rfl, rfl⟩

/-- Witness for C7: service "payments", version "2.3.1", file "release.pdf" in
`exampleWorld` gives storage key "/payments/2.3.1/release.pdf". -/
theorem C7_successful_creation_witness :
    ∃ (deployment : CreatedDeployment) (fileRow : FileRow),
      (createDeploymentWithFile Env.ok exampleWorld exampleRequest).1
        = ⟨201, .deploymentAndFile deployment fileRow⟩ ∧
      deployment.row.version = some "2.3.1" ∧
      fileRow.file_path = "/payments/2.3.1/release.pdf" ∧
      fileRow.deployment_id = deployment.row.id ∧
      (createDeploymentWithFile Env.ok exampleWorld exampleRequest).2.deployments
        = exampleWorld.deployments ++ [deployment.row] ∧
      (createDeploymentWithFile Env.ok exampleWorld exampleRequest).2.deployment_files
        = exampleWorld.deployment_files ++ [fileRow] ∧
      (∃ o ∈ (createDeploymentWithFile Env.ok exampleWorld exampleRequest).2.objects,
        o.key = fileRow.file_path ∧ o.body = [37, 80, 68, 70]) :=
  C7_successful_creation Env.ok exampleWorld exampleRequest exampleFile "2.3.1"
    [37, 80, 68, 70] rfl rfl (by decide) (by decide) rfl rfl rfl rfl rfl rfl

/-! ## C8: creation without a file -/

/-- C8: a creation request that carries no uploaded file is answered with status
400 and the world is returned as it was given: no deployment row, no file row and
no object was written, and nothing was put into the bucket. -/
theorem C8_missing_file_rejected (env : Env) (w : World) (req : CreateRequest)
    (hfile : req.file = none) :
    createDeploymentWithFile env w req
      = (⟨400, .message "File upload is mandatory for deployment creation"⟩, w) ∧
    (createDeploymentWithFile env w req).1.status = 400 ∧
    (createDeploymentWithFile env w req).2.deployments = w.deployments ∧
    (createDeploymentWithFile env w req).2.deployment_files = w.deployment_files ∧
    (createDeploymentWithFile env w req).2.objects = w.objects ∧
    (createDeploymentWithFile env w req).2.putLog = w.putLog := by
  have hout : createDeploymentWithFile env w req
      = (⟨400, .message "File upload is mandatory for deployment creation"⟩, w) := by
    unfold createDeploymentWithFile
    simp only [hfile]
  refine ⟨hout, ?_, ?_, ?_, ?_, ?_⟩ <;> rw [hout]

/-- Witness for C8: `exampleNoFile` in `exampleWorld`. -/
theorem C8_missing_file_rejected_witness :
    createDeploymentWithFile Env.ok exampleWorld exampleNoFile
      = (⟨400, .message "File upload is mandatory for deployment creation"⟩, exampleWorld) ∧
    (createDeploymentWithFile Env.ok exampleWorld exampleNoFile).1.status = 400 ∧
    (createDeploymentWithFile Env.ok exampleWorld exampleNoFile).2.deployments
      = exampleWorld.deployments ∧
    (createDeploymentWithFile Env.ok exampleWorld exampleNoFile).2.deployment_files
      = exampleWorld.deployment_files ∧
    (createDeploymentWithFile Env.ok exampleWorld exampleNoFile).2.objects
      = exampleWorld.objects ∧
    (createDeploymentWithFile Env.ok exampleWorld exampleNoFile).2.putLog
      = exampleWorld.putLog :=
  C8_missing_file_rejected Env.ok exampleWorld exampleNoFile rfl

/-! ## C9: the staged copy of the upload -/

/-- C9 at its failing inputs.  `exampleRepeat` repeats an existing version:
`createDeploymentWithFile` answers 409 and the staged copy
"temp-uploads/file-2.pdf" is still there.  `exampleAttachMissing` names a
deployment that does not exist: `uploadDeploymentFile` answers 404 and the staged
copy is still there.  On the sibling branches the copy is removed: after the 201
of `exampleRequest`, after the 500 of a refused upload, and after the 201 and the
500 of `uploadDeploymentFile`. -/
theorem C9_staged_copy_left_on_conflict_and_not_found :
    ((createDeploymentWithFile Env.ok exampleWorldAfter exampleRepeat).1.status = 409 ∧
      existsSync (createDeploymentWithFile Env.ok exampleWorldAfter exampleRepeat).2
        "temp-uploads/file-2.pdf" = true) ∧
    ((uploadDeploymentFile Env.ok exampleWorldAfter exampleAttachMissing).1.status = 404 ∧
      existsSync (uploadDeploymentFile Env.ok exampleWorldAfter exampleAttachMissing).2
        "temp-uploads/file-2.pdf" = true) ∧
    ((createDeploymentWithFile Env.ok exampleWorld exampleRequest).1.status = 201 ∧
      existsSync (createDeploymentWithFile Env.ok exampleWorld exampleRequest).2
        "temp-uploads/file-1.pdf" = false) ∧
    ((createDeploymentWithFile envUploadFails exampleWorld exampleRequest).1.status = 500 ∧
      existsSync (createDeploymentWithFile envUploadFails exampleWorld exampleRequest).2
        "temp-uploads/file-1.pdf" = false) ∧
    ((uploadDeploymentFile Env.ok exampleWorldAfter exampleAttach).1.status = 201 ∧
      existsSync (uploadDeploymentFile Env.ok exampleWorldAfter exampleAttach).2
        "temp-uploads/file-2.pdf" = false) ∧
    ((uploadDeploymentFile envUploadFails exampleWorldAfter exampleAttach).1.status = 500 ∧
      existsSync (uploadDeploymentFile envUploadFails exampleWorldAfter exampleAttach).2
        "temp-uploads/file-2.pdf" = false) := by
  decide

/-! ## C10: the status of a failed creation -/

/-- C10 at its failing input.  `exampleWorld` has no row for service 1, version
2.3.1, `Deployment.create` succeeds, and the upload is refused with a message that
contains "already exists for this service".  `createDeploymentWithFile` answers
409 with that message although the failure is not a duplicate version, where the
same failure with any other message is answered with 500. -/
theorem C10_upload_failure_answered_as_conflict :
    rowsFor exampleWorld 1 "2.3.1" = [] ∧
    (Deployment.create envUploadFailsLookalike exampleWorld (some 1) (some "2.3.1")
        (some "bug fixes") 7 none).1 = .ok ⟨exampleRow, some "billing"⟩ ∧
    (createDeploymentWithFile envUploadFailsLookalike exampleWorld exampleRequest).1
      = ⟨409, .message
          "QuotaExceeded: a storage quota already exists for this service account"⟩ ∧
    (createDeploymentWithFile envUploadFails exampleWorld exampleRequest).1
      = ⟨500, .message "Server error"⟩ := by
  decide

/-! ## C11: cascading delete -/

/-- The exact outcome of `Deployment.delete` when neither query fails. -/
theorem delete_ok (env : Env) (w : World) (id : Nat)
    (hfiles : env.deleteFilesQuery = none) (hrow : env.deleteQuery = none) :
    Deployment.delete env w id =
      (.ok ((w.deployments.filter (fun d => d.id == id)).head?),
       { w with
         deployment_files := w.deployment_files.filter (fun f => !(f.deployment_id == id))
         deployments := w.deployments.filter (fun d => !(d.id == id)) }) := by
  unfold Deployment.delete
  simp only [hfiles, hrow]

theorem head?_filter_of_key (rows : List DeploymentRow) (id : Nat) (d : DeploymentRow)
    (hd : d ∈ rows) (hid : d.id = id) (hkey : ∀ r ∈ rows, r.id = id → r = d) :
    (rows.filter (fun r => r.id == id)).head? = some d := by
  cases hh : (rows.filter (fun r => r.id == id)).head? with
  | none =>
    rw [List.head?_eq_none_iff] at hh
    have hmem : d ∈ rows.filter (fun r => r.id == id) := by
      rw [List.mem_filter]
      exact ⟨hd, by simp [hid]⟩
    rw [hh] at hmem
    exact absurd hmem (List.not_mem_nil _)
  | some r =>
    have hmem : r ∈ rows.filter (fun r => r.id == id) := List.mem_of_mem_head? hh
    rw [List.mem_filter] at hmem
    have hr : r.id = id := by simpa using hmem.2
    rw [hkey r hmem.1 hr]

theorem head?_filter_of_absent (rows : List DeploymentRow) (id : Nat)
    (habsent : ∀ r ∈ rows, r.id ≠ id) :
    (rows.filter (fun r => r.id == id)).head? = none := by
  rw [List.head?_eq_none_iff, List.filter_eq_nil_iff]
  intro r hr
  simpa using habsent r hr

/-- C11: `Deployment.delete(id)` in which no query fails.  The deployment_files
table loses exactly the rows whose deployment_id is `id` (the N rows counted
before the call, N possibly zero) and keeps every other file row; the deployments
table loses exactly the rows whose id is `id` and keeps every other row.  When a
row `d` carries the id, and is the only one that does, the call returns `d` and
`deleteDeployment` answers 200; when no row carries the id the call returns the
not-found result without raising an error and `deleteDeployment` answers 404. -/
theorem C11_delete_cascades (env : Env) (w : World) (id : Nat)
    (hfiles : env.deleteFilesQuery = none) (hrow : env.deleteQuery = none) :
    (Deployment.delete env w id).2.deployment_files
      = w.deployment_files.filter (fun f => !(f.deployment_id == id)) ∧
    (∀ f, f ∈ (Deployment.delete env w id).2.deployment_files
      ↔ f ∈ w.deployment_files ∧ f.deployment_id ≠ id) ∧
    (Deployment.delete env w id).2.deployment_files.length
        + (w.deployment_files.filter (fun f => f.deployment_id == id)).length
      = w.deployment_files.length ∧
    (Deployment.delete env w id).2.deployments
      = w.deployments.filter (fun d => !(d.id == id)) ∧
    (∀ d, d ∈ (Deployment.delete env w id).2.deployments
      ↔ d ∈ w.deployments ∧ d.id ≠ id) ∧
    (∀ d ∈ w.deployments, d.id = id → (∀ r ∈ w.deployments, r.id = id → r = d) →
      (Deployment.delete env w id).1 = .ok (some d) ∧
      (deleteDeployment env w id).1
        = ⟨200, .successMessage "Deployment deleted successfully"⟩) ∧
    ((∀ d ∈ w.deployments, d.id ≠ id) →
      (Deployment.delete env w id).1 = .ok none ∧
      (deleteDeployment env w id).1 = ⟨404, .message "Deployment not found"⟩) := by
  have hdel := delete_ok env w id hfiles hrow
  refine ⟨by rw [hdel], ?_, ?_, by rw [hdel], ?_, ?_, ?_⟩
  · intro f
    rw [hdel]
    simp [List.mem_filter]
  · rw [hdel]
    have := List.length_eq_length_filter_add (l := w.deployment_files)
      (fun f => f.deployment_id == id)
    simp only at this ⊢
    omega
  · intro d
    rw [hdel]
    simp [List.mem_filter]
  · intro d hd hid hkey
    have hhead := head?_filter_of_key w.deployments id d hd hid hkey
    unfold deleteDeployment
    rw [hdel, hhead]
    exact ⟨rfl, rfl⟩
  · intro habsent
    have hhead := head?_filter_of_absent w.deployments id habsent
    unfold deleteDeployment
    rw [hdel, hhead]
    exact ⟨rfl, rfl⟩

/-- Witness for C11: deleting deployment 1 of `exampleWorldAfter`, which has one
file row, and deleting the missing deployment 99. -/
theorem C11_delete_cascades_witness :
    (Deployment.delete Env.ok exampleWorldAfter 1).2.deployment_files = [] ∧
    (Deployment.delete Env.ok exampleWorldAfter 1).2.deployments = [] ∧
    (Deployment.delete Env.ok exampleWorldAfter 1).1 = .ok (some exampleRow) ∧
    (deleteDeployment Env.ok exampleWorldAfter 1).1
      = ⟨200, .successMessage "Deployment deleted successfully"⟩ ∧
    (Deployment.delete Env.ok exampleWorldAfter 99).1 = .ok none ∧
    (deleteDeployment Env.ok exampleWorldAfter 99).1
      = ⟨404, .message "Deployment not found"⟩ := by
  have h1 := C11_delete_cascades Env.ok exampleWorldAfter 1 rfl rfl
  have h2 := C11_delete_cascades Env.ok exampleWorldAfter 99 rfl rfl
  have hfound := h1.2.2.2.2.2.1 exampleRow (by decide) rfl (by decide)
  have hmissing := h2.2.2.2.2.2.2 (by decide)
  exact ⟨h1.1, h1.2.2.2.1, hfound.1, hfound.2, hmissing.1, hmissing.2⟩

/-! ## C12: failure inside `Deployment.delete` -/

/-- C12, as stated, fails.  In `exampleWorldAfter` deployment 1 has one file row.
When the query that deletes the deployment row fails, `Deployment.delete` raises
the error, the deployment row is still there, and the file row is gone. -/
theorem C12_counterexample :
    (Deployment.delete envDeleteRowFails exampleWorldAfter 1).1
      = .error ⟨"connection terminated unexpectedly"⟩ ∧
    exampleWorldAfter.deployment_files
      = [⟨1, 1, "release.pdf", "/payments/2.3.1/release.pdf", "pdf", 5000, 7⟩] ∧
    (Deployment.delete envDeleteRowFails exampleWorldAfter 1).2.deployment_files = [] ∧
    (Deployment.delete envDeleteRowFails exampleWorldAfter 1).2.deployments = [exampleRow] ∧
    (Deployment.delete envDeleteRowFails exampleWorldAfter 1).2.deployment_files
      ≠ exampleWorldAfter.deployment_files := by
  decide

/-- C12, amended: `Deployment.delete` issues its two queries one after the other
and not inside a transaction.  Whenever it raises an error the deployments table
is what it was before the call.  If the failing query is the first one, which
deletes the file rows, the whole world is what it was before the call.  If the
first query returned and the second one, which deletes the deployment row, failed,
the file rows of that deployment are gone: the deployment_files table is the table
before the call without the rows whose deployment_id is the given id. -/
theorem C12_delete_failure_outcomes (env : Env) (w : World) (id : Nat) (e : JsError)
    (herr : (Deployment.delete env w id).1 = .error e) :
    (Deployment.delete env w id).2.deployments = w.deployments ∧
    (env.deleteFilesQuery ≠ none → (Deployment.delete env w id).2 = w) ∧
    (env.deleteFilesQuery = none →
      env.deleteQuery = some e.message ∧
      (Deployment.delete env w id).2.deployment_files
        = w.deployment_files.filter (fun f => !(f.deployment_id == id))) := by
  unfold Deployment.delete at herr ⊢
  cases hf : env.deleteFilesQuery with
  | some m => simp
  | none =>
    cases hr : env.deleteQuery with
    | some m =>
      simp only [hf, hr, Except.error.injEq] at herr
      subst herr
      simp
    | none => simp [hf, hr] at herr

/-- Witness for C12: the amended statement applied to the failing delete of
deployment 1 in `exampleWorldAfter`. -/
theorem C12_delete_failure_outcomes_witness :
    (Deployment.delete envDeleteRowFails exampleWorldAfter 1).2.deployments
      = exampleWorldAfter.deployments ∧
    (Deployment.delete envDeleteRowFails exampleWorldAfter 1).2.deployment_files
      = exampleWorldAfter.deployment_files.filter (fun f => !(f.deployment_id == 1)) ∧
    (Deployment.delete envDeleteFilesFails exampleWorldAfter 1).2 = exampleWorldAfter := by
  have h1 := C12_delete_failure_outcomes envDeleteRowFails exampleWorldAfter 1
    ⟨"connection terminated unexpectedly"⟩ (by decide)
  have h2 := C12_delete_failure_outcomes envDeleteFilesFails exampleWorldAfter 1
    ⟨"connection terminated unexpectedly"⟩ (by decide)
  exact ⟨h1.1, (h1.2.2 rfl).2, h2.2.1 (by decide)⟩

/-! ## C13: the key of the attach entry point -/

theorem sqlEq_comm {α : Type} [DecidableEq α] (a b : Option α) : sqlEq a b = sqlEq b a := by
  cases a <;> cases b <;> simp [sqlEq, eq_comm]

theorem jsOrString_fallback (a : Option String) (b : String)
    (hb : b = "unknown-service" ∨ b = jsOrString a "unknown-service") :
    jsOrString a b = jsOrString a "unknown-service" := by
  cases a with
  | none =>
    rcases hb with hb | hb
    · rw [hb]
    · rw [hb]; rfl
  | some s =>
    by_cases hs : s = ""
    · rcases hb with hb | hb
      · rw [hb]
      · rw [hb]; simp [jsOrString, hs]
    · simp [jsOrString, hs]

theorem getServiceName_cases (env : Env) (w : World) (serviceId : Option Nat) :
    getServiceName env w serviceId = "unknown-service" ∨
    getServiceName env w serviceId
      = jsOrString
          (((w.services.filter (fun s => sqlEq (some s.id) serviceId)).head?).bind
            (fun s => s.name))
          "unknown-service" := by
  unfold getServiceName
  cases env.nameQuery with
  | some m => exact Or.inl rfl
  | none => exact Or.inr rfl

theorem findById_some (env : Env) (w : World) (id : Nat) (dep : FoundDeployment)
    (h : Deployment.findById env w id = .ok (some dep)) :
    dep.row ∈ w.deployments ∧ dep.row.id = id ∧
    dep.service_name
      = ((w.services.filter (fun s => sqlEq (some s.id) dep.row.service_id)).head?).bind
          (fun s => s.name) := by
  unfold Deployment.findById at h
  cases hq : env.findQuery with
  | some m => simp [hq] at h
  | none =>
    cases hh : (w.deployments.filter (fun d => d.id == id)).head? with
    | none => simp [hq, hh] at h
    | some d =>
      cases hf : env.filesQuery with
      | some m => simp [hq, hh, hf] at h
      | none =>
        simp only [hq, hh, hf, Except.ok.injEq, Option.some.injEq] at h
        subst h
        have hmem := List.mem_of_mem_head? hh
        rw [List.mem_filter] at hmem
        refine ⟨hmem.1, by simpa using hmem.2, ?_⟩
        simp only [sqlEq_comm d.service_id]

/-- The service name `uploadDeploymentFile` uses is the one `getServiceName`
returns when its lookup does not fail. -/
theorem attach_service_name (envA envC : Env) (w : World) (id : Nat) (dep : FoundDeployment)
    (hfind : Deployment.findById envA w id = .ok (some dep))
    (hname : envC.nameQuery = none) :
    jsOrString dep.service_name (getServiceName envA w dep.row.service_id)
      = getServiceName envC w dep.row.service_id := by
  obtain ⟨_, _, hjoin⟩ := findById_some envA w id dep hfind
  have hC : getServiceName envC w dep.row.service_id
      = jsOrString dep.service_name "unknown-service" := by
    unfold getServiceName
    simp only [hname, hjoin]
  rw [hC]
  apply jsOrString_fallback
  rcases getServiceName_cases envA w dep.row.service_id with h | h
  · exact Or.inl h
  · right
    rw [h, hjoin]

theorem fileCreate_objects (env : Env) (w : World) (depId : Nat)
    (name path type : String) (size user : Nat) :
    (DeploymentFile.create env w depId name path type size user).2.objects = w.objects ∧
    (DeploymentFile.create env w depId name path type size user).2.putLog = w.putLog := by
  unfold DeploymentFile.create
  cases env.fileInsert with
  | some m => exact ⟨rfl, rfl⟩
  | none =>
    by_cases hex : (w.deployments.any fun d => d.id == depId) = true
    · simp [hex]
    · simp [hex]

theorem unlinkSync_objects (w : World) (path : String) :
    (unlinkSync w path).2.objects = w.objects ∧
    (unlinkSync w path).2.putLog = w.putLog := by
  unfold unlinkSync
  by_cases hex : existsSync w path = true
  · simp [hex]
  · simp [hex]

/-- Once the upload has succeeded, the object and the recorded put stay whatever
the later steps of `uploadDeploymentFile` do. -/
theorem attach_after_upload (env : Env) (w : World) (req : UploadRequest)
    (file : UploadedFile) (dep : FoundDeployment) (content : List Nat)
    (hfile : req.file = some file)
    (hfind : Deployment.findById env w req.deploymentId = .ok (some dep))
    (hstaged : readFileSync w file.path = some content)
    (hupload : env.upload = none) :
    (uploadDeploymentFile env w req).2.objects
      = putObject w.objects
          ⟨s3KeyOfRow (jsOrString dep.service_name (getServiceName env w dep.row.service_id))
            dep.row.version file.originalname, content, file.mimetype⟩ ∧
    (uploadDeploymentFile env w req).2.putLog
      = w.putLog ++
          [s3KeyOfRow (jsOrString dep.service_name (getServiceName env w dep.row.service_id))
            dep.row.version file.originalname] := by
  unfold uploadDeploymentFile uploadDeploymentFile.inner
  simp only [hfile, hfind]
  rw [uploadFile_success env w file _ content hstaged hupload]
  simp only
  generalize hw2 : ({ w with
      objects := putObject w.objects
        ⟨s3KeyOfRow (jsOrString dep.service_name (getServiceName env w dep.row.service_id))
          dep.row.version file.originalname, content, file.mimetype⟩
      putLog := w.putLog ++
        [s3KeyOfRow (jsOrString dep.service_name (getServiceName env w dep.row.service_id))
          dep.row.version file.originalname] } : World) = w2
  have hobj2 : w2.objects = putObject w.objects
      ⟨s3KeyOfRow (jsOrString dep.service_name (getServiceName env w dep.row.service_id))
        dep.row.version file.originalname, content, file.mimetype⟩ := by rw [← hw2]
  have hlog2 : w2.putLog = w.putLog ++
      [s3KeyOfRow (jsOrString dep.service_name (getServiceName env w dep.row.service_id))
        dep.row.version file.originalname] := by rw [← hw2]
  rw [← hobj2, ← hlog2]
  have h3 := fileCreate_objects env w2 req.deploymentId file.originalname
    (env.uploadKey (s3KeyOfRow
      (jsOrString dep.service_name (getServiceName env w dep.row.service_id))
      dep.row.version file.originalname))
    ((env.extname file.originalname).drop 1) file.size req.userId
  cases hf : DeploymentFile.create env w2 req.deploymentId file.originalname
    (env.uploadKey (s3KeyOfRow
      (jsOrString dep.service_name (getServiceName env w dep.row.service_id))
      dep.row.version file.originalname))
    ((env.extname file.originalname).drop 1) file.size req.userId with
  | mk r3 w3 =>
    rw [hf] at h3
    cases r3 with
    | error e =>
      simp only [cleanupTempFile_objects, cleanupTempFile_putLog]
      exact h3
    | ok fileRow =>
      simp only
      have h4 := unlinkSync_objects w3 file.path
      cases hx : unlinkSync w3 file.path with
      | mk r4 w4 =>
        rw [hx] at h4
        cases r4 with
        | error e =>
          simp only [cleanupTempFile_objects, cleanupTempFile_putLog]
          exact ⟨h4.1.trans h3.1, h4.2.trans h3.2⟩
        | ok u => exact ⟨h4.1.trans h3.1, h4.2.trans h3.2⟩

theorem putObject_filter_key (objects : List S3Object) (o : S3Object) :
    (putObject objects o).filter (fun x => x.key == o.key) = [o] := by
  unfold putObject
  rw [List.filter_append, List.filter_filter]
  simp

/-- C13, as stated, fails in two ways.  First, `exampleAbsentVersion` creates
deployment 1 without a version and puts `release.pdf` under
"/payments/undefined/release.pdf"; the row read back has a NULL version, so
attaching another `release.pdf` to deployment 1 puts under
"/payments/null/release.pdf" and the earlier object stays.  Second,
`exampleRequest` served while the name lookup fails puts under
"/unknown-service/2.3.1/release.pdf"; attaching another `release.pdf` to that
deployment puts under "/payments/2.3.1/release.pdf" and the earlier object
stays. -/
theorem C13_counterexample :
    ((createDeploymentWithFile Env.ok exampleWorld exampleAbsentVersion).1.status = 201 ∧
      (createDeploymentWithFile Env.ok exampleWorld exampleAbsentVersion).2.putLog
        = ["/payments/undefined/release.pdf"] ∧
      (uploadDeploymentFile Env.ok exampleWorldNullVersion exampleAttachSameName).1.status
        = 201 ∧
      (uploadDeploymentFile Env.ok exampleWorldNullVersion exampleAttachSameName).2.putLog
        = ["/payments/undefined/release.pdf", "/payments/null/release.pdf"] ∧
      (uploadDeploymentFile Env.ok exampleWorldNullVersion exampleAttachSameName).2.objects
        = [⟨"/payments/undefined/release.pdf", [37, 80, 68, 70], "application/pdf"⟩,
           ⟨"/payments/null/release.pdf", [37, 80, 68, 70, 45, 50], "application/pdf"⟩]) ∧
    ((createDeploymentWithFile envNameQueryFails exampleWorld exampleRequest).1.status = 201 ∧
      (createDeploymentWithFile envNameQueryFails exampleWorld exampleRequest).2.putLog
        = ["/unknown-service/2.3.1/release.pdf"] ∧
      (uploadDeploymentFile Env.ok exampleWorldLookupFailed exampleAttachSameName).1.status
        = 201 ∧
      (uploadDeploymentFile Env.ok exampleWorldLookupFailed exampleAttachSameName).2.putLog
        = ["/unknown-service/2.3.1/release.pdf", "/payments/2.3.1/release.pdf"] ∧
      (uploadDeploymentFile Env.ok exampleWorldLookupFailed exampleAttachSameName).2.objects
        = [⟨"/unknown-service/2.3.1/release.pdf", [37, 80, 68, 70], "application/pdf"⟩,
           ⟨"/payments/2.3.1/release.pdf", [37, 80, 68, 70, 45, 50], "application/pdf"⟩]) := by
  decide

/-- C13, amended: take a deployment row found by `uploadDeploymentFile` whose
version is not NULL, say `v`, and any original file name.  The key
`uploadDeploymentFile` builds, from `deployment.service_name` falling back to
`getServiceName(deployment.service_id)`, equals the key `createDeploymentWithFile`
builds for the row's service id, `v` and that file name in the same database
state, provided the name lookup of the creation returns.  Hence, when the staged
copy is readable and the upload does not fail, the attach puts under that very
key, and afterwards the bucket holds exactly one object under it, the one just
uploaded: an earlier object under the key has been replaced. -/
theorem C13_attach_key_equals_creation_key
    (envA envC : Env) (w : World) (req : UploadRequest) (file : UploadedFile)
    (dep : FoundDeployment) (v : String) (content : List Nat)
    (hfile : req.file = some file)
    (hfind : Deployment.findById envA w req.deploymentId = .ok (some dep))
    (hv : dep.row.version = some v)
    (hname : envC.nameQuery = none) :
    s3KeyOfRow (jsOrString dep.service_name (getServiceName envA w dep.row.service_id))
        dep.row.version file.originalname
      = s3KeyTemplate (getServiceName envC w dep.row.service_id) (some v) file.originalname ∧
    (readFileSync w file.path = some content → envA.upload = none →
      (uploadDeploymentFile envA w req).2.putLog
        = w.putLog ++
            [s3KeyTemplate (getServiceName envC w dep.row.service_id) (some v)
              file.originalname] ∧
      (uploadDeploymentFile envA w req).2.objects.filter
          (fun o => o.key
            == s3KeyTemplate (getServiceName envC w dep.row.service_id) (some v)
                file.originalname)
        = [⟨s3KeyTemplate (getServiceName envC w dep.row.service_id) (some v)
              file.originalname, content, file.mimetype⟩]) := by
  have hkey : s3KeyOfRow
      (jsOrString dep.service_name (getServiceName envA w dep.row.service_id))
      dep.row.version file.originalname
      = s3KeyTemplate (getServiceName envC w dep.row.service_id) (some v)
          file.originalname := by
    rw [attach_service_name envA envC w req.deploymentId dep hfind hname, hv]
    rfl
  refine ⟨hkey, ?_⟩
  intro hstaged hupload
  obtain ⟨hobj, hlog⟩ := attach_after_upload envA w req file dep content hfile hfind hstaged
    hupload
  rw [hkey] at hobj hlog
  refine ⟨hlog, ?_⟩
  rw [hobj]
  exact putObject_filter_key w.objects
    ⟨s3KeyTemplate (getServiceName envC w dep.row.service_id) (some v) file.originalname,
      content, file.mimetype⟩

/-- Witness for C13: in `exampleWorldRestaged` the object of deployment 1 lies
under "/payments/2.3.1/release.pdf"; attaching another `release.pdf` to
deployment 1 derives the same key and replaces the object. -/
theorem C13_attach_key_equals_creation_key_witness :
    exampleWorldRestaged.objects
      = [⟨"/payments/2.3.1/release.pdf", [37, 80, 68, 70], "application/pdf"⟩] ∧
    s3KeyOfRow (jsOrString (some "payments") (getServiceName Env.ok exampleWorldRestaged (some 1)))
        (some "2.3.1") "release.pdf"
      = s3KeyTemplate (getServiceName Env.ok exampleWorldRestaged (some 1)) (some "2.3.1")
          "release.pdf" ∧
    (uploadDeploymentFile Env.ok exampleWorldRestaged exampleAttachSameName).2.putLog
      = ["/payments/2.3.1/release.pdf", "/payments/2.3.1/release.pdf"] ∧
    (uploadDeploymentFile Env.ok exampleWorldRestaged exampleAttachSameName).2.objects.filter
        (fun o => o.key == "/payments/2.3.1/release.pdf")
      = [⟨"/payments/2.3.1/release.pdf", [37, 80, 68, 70, 45, 50], "application/pdf"⟩] := by
  have h := C13_attach_key_equals_creation_key Env.ok Env.ok exampleWorldRestaged
    exampleAttachSameName exampleFile3
    ⟨exampleRow, some "payments", some "billing", exampleWorldRestaged.deployment_files⟩
    "2.3.1" [37, 80, 68, 70, 45, 50] rfl (by decide) rfl rfl
  have h2 := h.2 (by decide) rfl
  exact ⟨by decide, h.1, h2.1, h2.2⟩

/-! ## C14: fields of the creation request -/

theorem createInner_ok_status (env : Env) (w w1 : World) (req : CreateRequest)
    (file : UploadedFile) (res : Response)
    (h : createDeploymentWithFile.inner env w req file = (.ok res, w1)) :
    res.status = 201 := by
  unfold createDeploymentWithFile.inner at h
  dsimp only at h
  split at h
  · simp at h
  · split at h
    · simp at h
    · split at h
      · simp at h
      · split at h
        · simp at h
        · simp only [Prod.mk.injEq, Except.ok.injEq] at h
          rw [← h.1]

theorem createDeploymentWithFile_deployments_of_file (env : Env) (w : World)
    (req : CreateRequest) (file : UploadedFile) (hfile : req.file = some file) :
    (createDeploymentWithFile env w req).2.deployments
      = (Deployment.create env w req.body.serviceId req.body.version req.body.changes
          req.userId req.body.branchName).2.deployments := by
  have h := createInner_deployments env w req file
  unfold createDeploymentWithFile
  simp only [hfile]
  cases hin : createDeploymentWithFile.inner env w req file with
  | mk r w1 =>
    rw [hin] at h
    cases r with
    | ok res => exact h
    | error e =>
      dsimp only
      by_cases hdup : isDuplicateVersionMessage e = true
      · rw [if_pos hdup]; exact h
      · rw [if_neg hdup, cleanupTempFile_deployments]; exact h

theorem createDeploymentWithFile_status (env : Env) (w : World) (req : CreateRequest)
    (file : UploadedFile) (hfile : req.file = some file) :
    (createDeploymentWithFile env w req).1.status = 201 ∨
    (createDeploymentWithFile env w req).1.status = 409 ∨
    (createDeploymentWithFile env w req).1.status = 500 := by
  unfold createDeploymentWithFile
  simp only [hfile]
  cases hin : createDeploymentWithFile.inner env w req file with
  | mk r w1 =>
    cases r with
    | ok res => exact Or.inl (createInner_ok_status env w w1 req file res hin)
    | error e =>
      dsimp only
      by_cases hdup : isDuplicateVersionMessage e = true
      · rw [if_pos hdup]; exact Or.inr (Or.inl rfl)
      · rw [if_neg hdup]; exact Or.inr (Or.inr rfl)

theorem jsOrString_ne_empty (a : Option String) (b : String) (hb : b ≠ "") :
    jsOrString a b ≠ "" := by
  cases a with
  | none => exact hb
  | some s =>
    by_cases hs : s = ""
    · simp [jsOrString, hs, hb]
    · simp [jsOrString, hs]

theorem getServiceName_ne_empty (env : Env) (w : World) (serviceId : Option Nat) :
    getServiceName env w serviceId ≠ "" := by
  unfold getServiceName
  cases env.nameQuery with
  | some m =>
    show "unknown-service" ≠ ""
    decide
  | none => exact jsOrString_ne_empty _ _ (by decide)

/-- C14, as stated, fails.  `exampleEmptyVersion` carries a file and the empty
version: `createDeploymentWithFile` answers 201, inserts a row whose version is
the empty string and puts the object under "/payments//release.pdf".
`exampleBlankVersion`, whose version is two blanks, is answered 201 as well, with
the object under "/payments/  /release.pdf". -/
theorem C14_counterexample :
    (createDeploymentWithFile Env.ok exampleWorld exampleEmptyVersion).1.status = 201 ∧
    (createDeploymentWithFile Env.ok exampleWorld exampleEmptyVersion).2.deployments
      = [⟨1, some 1, some "", some "bug fixes", 7, "main"⟩] ∧
    (createDeploymentWithFile Env.ok exampleWorld exampleEmptyVersion).2.putLog
      = ["/payments//release.pdf"] ∧
    (createDeploymentWithFile Env.ok exampleWorld exampleBlankVersion).1.status = 201 ∧
    (createDeploymentWithFile Env.ok exampleWorld exampleBlankVersion).2.putLog
      = ["/payments/  /release.pdf"] := by
  decide

/-- C14, amended: the only validation of `createDeploymentWithFile` is the
presence of the file.  A creation request with an attached file, whatever its
version and serviceId, is never answered 400: the answer is 201, 409 or 500, and
the deployments table afterwards is the one `Deployment.create` leaves when called
with the fields as given.  When no step fails the answer is 201, the row inserted
carries the version as given, and the object is put under the key built from that
version, so that an empty version gives an empty version segment.  The
service-name segment of the key is never empty. -/
theorem C14_only_the_file_is_validated
    (env : Env) (w : World) (req : CreateRequest) (file : UploadedFile)
    (hfile : req.file = some file) :
    ((createDeploymentWithFile env w req).1.status = 201 ∨
      (createDeploymentWithFile env w req).1.status = 409 ∨
      (createDeploymentWithFile env w req).1.status = 500) ∧
    (createDeploymentWithFile env w req).1.status ≠ 400 ∧
    (createDeploymentWithFile env w req).2.deployments
      = (Deployment.create env w req.body.serviceId req.body.version req.body.changes
          req.userId req.body.branchName).2.deployments ∧
    getServiceName env w req.body.serviceId ≠ "" ∧
    (∀ content : List Nat,
      readFileSync w file.path = some content →
      (∀ d ∈ w.deployments,
        (sqlEq d.service_id req.body.serviceId && sqlEq d.version req.body.version) = false) →
      env.checkQuery = none → env.serviceQuery = none → env.insertQuery = none →
      env.upload = none → env.fileInsert = none →
      (createDeploymentWithFile env w req).1.status = 201 ∧
      (createDeploymentWithFile env w req).2.deployments
        = w.deployments ++
            [⟨w.nextDeploymentId, req.body.serviceId, req.body.version, req.body.changes,
              req.userId, jsOrString req.body.branchName "main"⟩] ∧
      (createDeploymentWithFile env w req).2.putLog
        = w.putLog ++
            ["/" ++ getServiceName env w req.body.serviceId ++ "/"
              ++ jsToString req.body.version ++ "/" ++ file.originalname]) := by
  have hstatus := createDeploymentWithFile_status env w req file hfile
  refine ⟨hstatus, ?_, ?_, getServiceName_ne_empty env w req.body.serviceId, ?_⟩
  · rcases hstatus with h | h | h <;> rw [h] <;> decide
  · exact createDeploymentWithFile_deployments_of_file env w req file hfile
  · intro content hstaged hfresh hc hs hi hu hl
    rw [createDeploymentWithFile_success env w req file content hfile hstaged hfresh
      hc hs hi hu hl]
    exact ⟨rfl, rfl, rfl⟩

/-- Witness for C14: the amended statement applied to `exampleEmptyVersion` in
`exampleWorld`. -/
theorem C14_only_the_file_is_validated_witness :
    (createDeploymentWithFile Env.ok exampleWorld exampleEmptyVersion).1.status ≠ 400 ∧
    (createDeploymentWithFile Env.ok exampleWorld exampleEmptyVersion).1.status = 201 ∧
    (createDeploymentWithFile Env.ok exampleWorld exampleEmptyVersion).2.deployments
      = [⟨1, some 1, some "", some "bug fixes", 7, "main"⟩] ∧
    (createDeploymentWithFile Env.ok exampleWorld exampleEmptyVersion).2.putLog
      = ["/payments//release.pdf"] := by
  have h := C14_only_the_file_is_validated Env.ok exampleWorld exampleEmptyVersion
    exampleFile rfl
  have h2 := h.2.2.2.2 [37, 80, 68, 70] (by decide) (by decide) rfl rfl rfl rfl rfl
  exact ⟨h.2.1, h2.1, h2.2.1, h2.2.2⟩

/-! ## C15: unresolved service names -/

theorem getServiceName_unresolved (env : Env) (w : World) (serviceId : Option Nat)
    (hunresolved : env.nameQuery ≠ none ∨
      ∀ r ∈ w.services, sqlEq (some r.id) serviceId = true →
        r.name = none ∨ r.name = some "") :
    getServiceName env w serviceId = "unknown-service" := by
  unfold getServiceName
  cases hq : env.nameQuery with
  | some m => rfl
  | none =>
    rcases hunresolved with h | h
    · exact absurd hq h
    · dsimp only
      cases hh : (w.services.filter (fun s => sqlEq (some s.id) serviceId)).head? with
      | none => rfl
      | some r =>
        have hmem := List.mem_of_mem_head? hh
        rw [List.mem_filter] at hmem
        rcases h r hmem.1 hmem.2 with hn | hn
        · simp [jsOrString, hn]
        · simp [jsOrString, hn]

theorem s3KeyTemplate_unknown (version : Option String) (fileName : String) :
    s3KeyTemplate "unknown-service" version fileName
      = "/unknown-service/" ++ jsToString version ++ "/" ++ fileName := by
  rfl

/-- C15: `getServiceName` is total, and for a serviceId that has no row in the
services table, whose rows have an empty or null name, or whose lookup query
raises an error, it returns "unknown-service".  `createDeploymentWithFile` then
still calls `Deployment.create` with the fields as given, and when no later step
fails it answers 201 and puts the object under "/unknown-service/" ++ version ++
"/" ++ originalFilename.  Any two unresolved services therefore get the same key
for equal version and file name. -/
theorem C15_unresolved_service_name
    (env : Env) (w : World) (serviceId : Option Nat)
    (hunresolved : env.nameQuery ≠ none ∨
      ∀ r ∈ w.services, sqlEq (some r.id) serviceId = true →
        r.name = none ∨ r.name = some "") :
    getServiceName env w serviceId = "unknown-service" ∧
    (∀ (req : CreateRequest) (file : UploadedFile),
      req.file = some file → req.body.serviceId = serviceId →
      (createDeploymentWithFile env w req).2.deployments
        = (Deployment.create env w req.body.serviceId req.body.version req.body.changes
            req.userId req.body.branchName).2.deployments ∧
      (∀ content : List Nat,
        readFileSync w file.path = some content →
        (∀ d ∈ w.deployments,
          (sqlEq d.service_id req.body.serviceId && sqlEq d.version req.body.version)
            = false) →
        env.checkQuery = none → env.serviceQuery = none → env.insertQuery = none →
        env.upload = none → env.fileInsert = none →
        (createDeploymentWithFile env w req).1.status = 201 ∧
        (createDeploymentWithFile env w req).2.deployments
          = w.deployments ++
              [⟨w.nextDeploymentId, req.body.serviceId, req.body.version, req.body.changes,
                req.userId, jsOrString req.body.branchName "main"⟩] ∧
        (createDeploymentWithFile env w req).2.putLog
          = w.putLog ++
              ["/unknown-service/" ++ jsToString req.body.version ++ "/"
                ++ file.originalname])) ∧
    (∀ (env2 : Env) (serviceId2 : Option Nat) (version : Option String) (fileName : String),
      (env2.nameQuery ≠ none ∨
        ∀ r ∈ w.services, sqlEq (some r.id) serviceId2 = true →
          r.name = none ∨ r.name = some "") →
      s3KeyTemplate (getServiceName env w serviceId) version fileName
        = s3KeyTemplate (getServiceName env2 w serviceId2) version fileName) := by
  have hname := getServiceName_unresolved env w serviceId hunresolved
  refine ⟨hname, ?_, ?_⟩
  · intro req file hfile hsid
    refine ⟨createDeploymentWithFile_deployments_of_file env w req file hfile, ?_⟩
    intro content hstaged hfresh hc hs hi hu hl
    rw [createDeploymentWithFile_success env w req file content hfile hstaged hfresh
      hc hs hi hu hl]
    refine ⟨rfl, rfl, ?_⟩
    simp only [hsid, hname, s3KeyTemplate_unknown]
  · intro env2 serviceId2 version fileName h2
    rw [hname, getServiceName_unresolved env2 w serviceId2 h2]

/-- Witness for C15: service 42 has no row in `exampleWorld`; service 2 of
`exampleWorldUnnamed` has an empty name; service 1 is looked up while the query
fails. -/
theorem C15_unresolved_service_name_witness :
    getServiceName Env.ok exampleWorld (some 42) = "unknown-service" ∧
    getServiceName Env.ok exampleWorldUnnamed (some 2) = "unknown-service" ∧
    getServiceName envNameQueryFails exampleWorld (some 1) = "unknown-service" ∧
    (createDeploymentWithFile Env.ok exampleWorld exampleUnknownService).1.status = 201 ∧
    (createDeploymentWithFile Env.ok exampleWorld exampleUnknownService).2.putLog
      = ["/unknown-service/2.3.1/release.pdf"] ∧
    (createDeploymentWithFile envNameQueryFails exampleWorld exampleRequest).2.putLog
      = ["/unknown-service/2.3.1/release.pdf"] ∧
    s3KeyTemplate (getServiceName Env.ok exampleWorld (some 42)) (some "2.3.1") "release.pdf"
      = s3KeyTemplate (getServiceName envNameQueryFails exampleWorld (some 1)) (some "2.3.1")
          "release.pdf" := by
  have h42 := C15_unresolved_service_name Env.ok exampleWorld (some 42)
    (Or.inr (by decide))
  have h2 := C15_unresolved_service_name Env.ok exampleWorldUnnamed (some 2)
    (Or.inr (by decide))
  have h1 := C15_unresolved_service_name envNameQueryFails exampleWorld (some 1)
    (Or.inl (by decide))
  have hreq := (h42.2.1 exampleUnknownService exampleFile rfl rfl).2 [37, 80, 68, 70]
    (by decide) (by decide) rfl rfl rfl rfl rfl
  have hreq1 := (h1.2.1 exampleRequest exampleFile rfl rfl).2 [37, 80, 68, 70]
    (by decide) (by decide) rfl rfl rfl rfl rfl
  exact ⟨h42.1, h2.1, h1.1, hreq.1, hreq.2.2, hreq1.2.2,
    h42.2.2 envNameQueryFails (some 1) (some "2.3.1") "release.pdf" (Or.inl (by decide))⟩

end SecureDeployer
